import Mathlib

/-!
# Verification of the ChartPatterns detection-and-lifecycle engine

Shallow embedding of the final-form implementation (`findPatterns.cpp` with the
`TrendTracker` / `PatternDetector` interface, `SHSDetector` and `ISHSDetector`)
and proofs about it.

Numeric model: the C++ code computes over `double`.  The claims under scrutiny
are order/branch claims (comparisons, branch selection, which value is stored),
so we embed prices as exact fractions (`Frac`: integer numerator, positive
integer denominator) with exact field arithmetic, and times as `Int`
(the engine stores every timestamp into `std::vector<int> timeStamps`, and all
time arithmetic in the return calculator is C++ `int` arithmetic, so integer
times are the faithful regime).  IEEE division by zero (which produces
`Inf`/`NaN`, not a real number) is modelled by `Option` in the one primitive
that can divide by zero (`getSlope`).
-/

/-- Exact fraction with positive denominator: the embedding of the C++
`double` values flowing through the engine (exact arithmetic; the claims are
about comparisons and branch selection, not rounding). -/
structure Frac where
  num : Int
  den : Int
  den_pos : 0 < den

namespace Frac

/-- Embed an integer. -/
def ofInt (n : Int) : Frac := ⟨n, 1, Int.one_pos⟩

instance : OfNat Frac n := ⟨⟨(n : Int), 1, Int.one_pos⟩⟩

instance : Neg Frac := ⟨fun a => ⟨-a.num, a.den, a.den_pos⟩⟩

instance : Add Frac :=
  ⟨fun a b => ⟨a.num * b.den + b.num * a.den, a.den * b.den, Int.mul_pos a.den_pos b.den_pos⟩⟩

instance : Sub Frac :=
  ⟨fun a b => ⟨a.num * b.den - b.num * a.den, a.den * b.den, Int.mul_pos a.den_pos b.den_pos⟩⟩

instance : Mul Frac :=
  ⟨fun a b => ⟨a.num * b.num, a.den * b.den, Int.mul_pos a.den_pos b.den_pos⟩⟩

theorem natAbs_pos_of_ne {n : Int} (h : ¬ n = 0) : (0 : Int) < (n.natAbs : Int) := by
  have := Int.natAbs_pos.mpr h
  exact_mod_cast this

/-- Exact division.  The zero-divisor branch is never taken by the embedded
code (every division in the engine is behind a nonzero guard except `getSlope`,
which is embedded separately via `Option`). -/
def div (a b : Frac) : Frac :=
  if h : b.num = 0 then ⟨0, 1, Int.one_pos⟩
  else ⟨a.num * b.den * Int.sign b.num, a.den * (b.num.natAbs : Int),
        Int.mul_pos a.den_pos (natAbs_pos_of_ne h)⟩

instance : Div Frac := ⟨Frac.div⟩

/-- Absolute value (`fabs`). -/
def abs (a : Frac) : Frac := ⟨|a.num|, a.den, a.den_pos⟩

/-- Order: cross-multiplication against the positive denominators. -/
instance : LT Frac := ⟨fun a b => a.num * b.den < b.num * a.den⟩

instance : LE Frac := ⟨fun a b => a.num * b.den ≤ b.num * a.den⟩

instance (a b : Frac) : Decidable (a < b) :=
  inferInstanceAs (Decidable (a.num * b.den < b.num * a.den))

instance (a b : Frac) : Decidable (a ≤ b) :=
  inferInstanceAs (Decidable (a.num * b.den ≤ b.num * a.den))

/-- The comparison `x != 0.0` from the source. -/
def isZero (a : Frac) : Bool := a.num == 0

theorem lt_def {a b : Frac} : a < b ↔ a.num * b.den < b.num * a.den := Iff.rfl

theorem lt_asymm {a b : Frac} (h : a < b) : ¬ b < a := by
  intro h2
  exact absurd h (by exact Int.not_lt.mpr (Int.le_of_lt h2))

theorem ofInt_lt {m n : Int} : ofInt m < ofInt n ↔ m < n := by
  simp [ofInt, lt_def]

theorem eq_of_fields {a b : Frac} (hn : a.num = b.num) (hd : a.den = b.den) : a = b := by
  cases a
  cases b
  simp_all

instance : DecidableEq Frac := fun a b =>
  if h : a.num = b.num ∧ a.den = b.den then
    isTrue (eq_of_fields h.1 h.2)
  else
    isFalse (fun e => h (by cases e; exact ⟨rfl, rfl⟩))

end Frac

/-- Sanity: exact arithmetic computes in the kernel. -/
example : ((110 : Frac) + (Frac.ofInt 25 - Frac.ofInt 10) * (115 - 110) / (Frac.ofInt 20 - Frac.ofInt 10)) < 118 := by
  decide

example : (117 : Frac) < 110 + (Frac.ofInt 25 - Frac.ofInt 10) * (115 - 110) / (Frac.ofInt 20 - Frac.ofInt 10) := by
  decide

/-! ## Geometry Kernel (`safeLinearInterpolation.cpp`, `getSlope.cpp`) -/

/-- The degeneracy epsilon `1e-10` used by `safeLinearInterpolation` and
`calculateSlope`. -/
def degenEps : Frac := ⟨1, 10 ^ 10, by decide⟩

/-- `safeLinearInterpolation(x1,x2,y1,y2,x)`: two-point line evaluation with
the mean-of-endpoints fallback when `|x2-x1| < 1e-10`
(`safeLinearInterpolation.cpp`). -/
def safeLinearInterpolation (x1 x2 y1 y2 x : Frac) : Frac :=
  if Frac.abs (x2 - x1) < degenEps then (y1 + y2) / 2
  else y1 + (x - x1) * (y2 - y1) / (x2 - x1)

/-- `calculateSlope(x1,x2,y1,y2)` (`safeLinearInterpolation.cpp`, lines
88-98): slope with a guard returning `0` when `|x2-x1| < 1e-10`. -/
def calculateSlope (x1 x2 y1 y2 : Frac) : Frac :=
  if Frac.abs (x2 - x1) < degenEps then 0
  else (y2 - y1) / (x2 - x1)

/-- `getSlope(x1,x2,y1,y2)` (`getSlope.cpp`): the raw division
`(y2-y1)/(x2-x1)` with no degeneracy guard.  A zero denominator makes the
IEEE result `±Inf`/`NaN`, i.e. not a real number, which we model as `none`. -/
def getSlope (x1 x2 y1 y2 : Frac) : Option Frac :=
  if (x2 - x1).num = 0 then none
  else some ((y2 - y1) / (x2 - x1))

/-! ## Pattern data model (`PatternDetector.hpp`)

The operative header is the variant whose `PatternData` carries the
prior/following-trend fields and the `processed` flag (the only variant the
final-form `findPatterns.cpp`/`TrendTracker.cpp` compile against); that
variant defines `INVALID_TIME = -1`.  The C++ vectors `timeStamps[7]`,
`priceStamps[7]`, `returns[6]`, `relReturns[5]`, `fixedWindowsFound[6]`,
`relWindowsFound[5]` are sized once by the constructor and never change size
on any reachable path, so they are embedded as total functions from the index;
the defensive `resize` calls in the source are identities in this regime. -/

/-- Sentinel for an invalid or unset time value, from the operative
`PatternDetector.hpp` variant (the one defining the prior-trend fields):
`const int INVALID_TIME = -1;`.  (A stale header variant in the tree sets
`99999991`, but its `PatternData` has no prior-trend fields at all, so the
cited trend-attachment code cannot compile against it.) -/
def INVALID_TIME : Int := -1

/-- A return slot: `NA_REAL`, a plain price ratio, or a log of a price ratio.
The log is kept symbolic (`logRatio q` stands for `log q`); the claims only
concern which ratio is stored and whether the log is applied. -/
inductive RetEntry where
  | na : RetEntry
  | ratio : Frac → RetEntry
  | logRatio : Frac → RetEntry
deriving DecidableEq

/-- `struct PatternData` (operative `PatternDetector.hpp`), restricted to the
fields the engine reads or writes.  `breakoutIdx = none` is `NA_INTEGER`;
`priorTrendStartPrice = none` is the constructor's `NA_REAL`. -/
structure PatternData where
  patternName : String
  startIdx : Nat
  leftShoulderIdx : Nat
  necklineStartIdx : Nat
  headIdx : Nat
  necklineEndIdx : Nat
  rightShoulderIdx : Nat
  breakoutIdx : Option Nat
  timeStamps : Nat → Int
  priceStamps : Nat → Frac
  priorTrendStartPrice : Option Frac
  priorTrendStartTime : Int
  priorTrendPointsCount : Int
  priorTrendComplete : Bool
  followingTrendStartPrice : Option Frac
  followingTrendStartTime : Int
  followingTrendPointsCount : Int
  followingTrendComplete : Bool
  fixedWindowsFound : Nat → Bool
  relWindowsFound : Nat → Bool
  returns : Nat → RetEntry
  relReturns : Nat → RetEntry
  processed : Bool

namespace PatternData

/-- The `PatternData()` default constructor.  (The C++ index fields start at
the placeholder `-1`; they are always overwritten by `detect` before any use,
and are embedded as `Nat`, so the placeholder is `0` here.) -/
def init : PatternData where
  patternName := ""
  startIdx := 0
  leftShoulderIdx := 0
  necklineStartIdx := 0
  headIdx := 0
  necklineEndIdx := 0
  rightShoulderIdx := 0
  breakoutIdx := none
  timeStamps := fun _ => 0
  priceStamps := fun _ => 0
  priorTrendStartPrice := none
  priorTrendStartTime := INVALID_TIME
  priorTrendPointsCount := 0
  priorTrendComplete := false
  followingTrendStartPrice := none
  followingTrendStartTime := INVALID_TIME
  followingTrendPointsCount := 0
  followingTrendComplete := false
  fixedWindowsFound := fun _ => false
  relWindowsFound := fun _ => false
  returns := fun _ => RetEntry.na
  relReturns := fun _ => RetEntry.na
  processed := false

end PatternData

/-! ## SHS detector (`SHSDetector.cpp`) -/

/-- The `isValid` condition of `SHSDetector::detect`: the seven SHS shape
conjuncts, with the neckline evaluated through `safeLinearInterpolation` at
the left shoulder, right shoulder and first point. -/
def shsIsValid (prices : List Frac) (times : List Int) (position : Nat) : Prop :=
  prices.getD position 0 < prices.getD (position+1) 0 ∧
  prices.getD position 0 < prices.getD (position+2) 0 ∧
  prices.getD (position+1) 0 < prices.getD (position+3) 0 ∧
  prices.getD (position+5) 0 < prices.getD (position+3) 0 ∧
  safeLinearInterpolation
    (Frac.ofInt (times.getD (position+2) 0)) (Frac.ofInt (times.getD (position+4) 0))
    (prices.getD (position+2) 0) (prices.getD (position+4) 0)
    (Frac.ofInt (times.getD (position+5) 0)) < prices.getD (position+5) 0 ∧
  safeLinearInterpolation
    (Frac.ofInt (times.getD (position+2) 0)) (Frac.ofInt (times.getD (position+4) 0))
    (prices.getD (position+2) 0) (prices.getD (position+4) 0)
    (Frac.ofInt (times.getD (position+1) 0)) < prices.getD (position+1) 0 ∧
  prices.getD position 0 < safeLinearInterpolation
    (Frac.ofInt (times.getD (position+2) 0)) (Frac.ofInt (times.getD (position+4) 0))
    (prices.getD (position+2) 0) (prices.getD (position+4) 0)
    (Frac.ofInt (times.getD position 0))

instance (prices : List Frac) (times : List Int) (position : Nat) :
    Decidable (shsIsValid prices times position) := by
  unfold shsIsValid
  infer_instance

/-- `SHSDetector::detect`: decide whether the 6 consecutive pivots starting at
`position` form an SHS candidate, and if so build the initialized
`PatternData` (the out-parameter of the C++ method). -/
def shsDetect (prices : List Frac) (times : List Int) (position : Nat) : Option PatternData :=
  if prices.length ≤ position + 5 then none
  else
    if shsIsValid prices times position then
      some { PatternData.init with
        patternName := "SHS"
        startIdx := position
        leftShoulderIdx := position + 1
        necklineStartIdx := position + 2
        headIdx := position + 3
        necklineEndIdx := position + 4
        rightShoulderIdx := position + 5
        breakoutIdx := none
        timeStamps := fun k => if k < 6 then times.getD (position + k) 0 else 0
        priceStamps := fun k => if k < 6 then prices.getD (position + k) 0 else 0 }
    else none

/-- The `breakoutDetected` condition of `SHSDetector::detectBreakout`:
`priceBelowNeckline && nextPriceBelowRightShoulder`. -/
def shsBreakoutDetected (prices : List Frac) (times : List Int) (j : Nat) (p : PatternData) :
    Prop :=
  prices.getD j 0 < safeLinearInterpolation
    (Frac.ofInt (p.timeStamps 2)) (Frac.ofInt (p.timeStamps 4))
    (p.priceStamps 2) (p.priceStamps 4)
    (Frac.ofInt (times.getD j 0)) ∧
  prices.getD (j+1) 0 < p.priceStamps 5

instance (prices : List Frac) (times : List Int) (j : Nat) (p : PatternData) :
    Decidable (shsBreakoutDetected prices times j p) := by
  unfold shsBreakoutDetected
  infer_instance

/-- `SHSDetector::detectBreakout`: check position `j` of the original series
for an SHS breakout, recording breakout index/time/price on success.  (The
`timeStamps.size() < 5` guard of the source is vacuous here: the stamp vectors
always hold 7 entries.) -/
def shsDetectBreakout (prices : List Frac) (times : List Int) (j : Nat) (p : PatternData) :
    Bool × PatternData :=
  if j ≤ p.rightShoulderIdx ∨ prices.length ≤ j + 1 then (false, p)
  else
    if shsBreakoutDetected prices times j p then
      (true, { p with
        breakoutIdx := some (j + 1)
        timeStamps := fun k => if k = 6 then times.getD (j+1) 0 else p.timeStamps k
        priceStamps := fun k => if k = 6 then prices.getD (j+1) 0 else p.priceStamps k })
    else (false, p)

/-- `SHSDetector::isPatternInvalidated`: invalidation when price rises above
the right shoulder, checked only when `position > rightShoulderIdx`.  (The
`priceStamps.size() <= 5` guard is vacuous: the stamp vector holds 7
entries.) -/
def shsIsPatternInvalidated (prices : List Frac) (position : Nat) (p : PatternData) : Bool :=
  if p.rightShoulderIdx < position then
    if prices.length ≤ position then false
    else decide (p.priceStamps 5 < prices.getD position 0)
  else false

/-- The fixed return windows `{1, 3, 5, 10, 30, 60}`. -/
def fixedWindows : Nat → Int := fun w => [1, 3, 5, 10, 30, 60].getD w 0

/-- The relative return windows `{L/3, L/2, L, 2L, 4L}` for a (clamped)
pattern length `L`.  `L ≥ 1` always, so Lean's integer division agrees with
the C++ truncating division here. -/
def relWindows (patternLengthInDays : Int) : Nat → Int := fun w =>
  [patternLengthInDays / 3, patternLengthInDays / 2, patternLengthInDays,
   patternLengthInDays * 2, patternLengthInDays * 4].getD w 0

/-- Write-back of the breakout price into `priceStamps[6]` (the fallback path
of `updateReturns`). -/
def PatternData.withBreakoutPriceStamp (v : Frac) (p : PatternData) : PatternData :=
  { p with priceStamps := fun k => if k = 6 then v else p.priceStamps k }

/-- Write-back of the breakout time into `timeStamps[6]` (the fallback path
of `updateReturns`). -/
def PatternData.withBreakoutTimeStamp (v : Int) (p : PatternData) : PatternData :=
  { p with timeStamps := fun k => if k = 6 then v else p.timeStamps k }

/-- The two `for` loops of `updateReturns`: fill every not-yet-found fixed or
relative window whose threshold is strictly below `timeDiff` with the ratio
`r` (`logRatio r` for the first fixed window), and mark it found. -/
def fillReturnSlots (r : Frac) (timeDiff patternLengthInDays : Int) (p : PatternData) :
    PatternData :=
  { p with
    fixedWindowsFound := fun w =>
      if w < 6 ∧ ¬ p.fixedWindowsFound w = true ∧ fixedWindows w < timeDiff then true
      else p.fixedWindowsFound w
    returns := fun w =>
      if w < 6 ∧ ¬ p.fixedWindowsFound w = true ∧ fixedWindows w < timeDiff then
        if w = 0 then RetEntry.logRatio r else RetEntry.ratio r
      else p.returns w
    relWindowsFound := fun w =>
      if w < 5 ∧ ¬ p.relWindowsFound w = true ∧ relWindows patternLengthInDays w < timeDiff then
        true
      else p.relWindowsFound w
    relReturns := fun w =>
      if w < 5 ∧ ¬ p.relWindowsFound w = true ∧ relWindows patternLengthInDays w < timeDiff then
        RetEntry.ratio r
      else p.relReturns w }

/-- The `all_of` checks at the end of `updateReturns`. -/
def allReturnsFound (p : PatternData) : Bool :=
  (List.range 6).all p.fixedWindowsFound && (List.range 5).all p.relWindowsFound

/-- `SHSDetector::updateReturns`: one incremental step of the return
calculator at `currentPosition`, translated guard-for-guard.  The defensive
`resize` calls and the first-call initialization of the tracking arrays are
identities here (the vectors always have their constructor sizes), and the
`R_IsNA` tests are vacuous (no NA flows into the stamp vectors). -/
def shsUpdateReturns (prices : List Frac) (times : List Int) (currentPosition : Nat)
    (p : PatternData) : Bool × PatternData :=
  match p.breakoutIdx with
  | none => (false, p)
  | some b =>
    if currentPosition ≤ b then (false, p)
    else if prices.length ≤ currentPosition ∨ times.length ≤ currentPosition then (false, p)
    else if (p.priceStamps 6).isZero ∧ prices.length ≤ b then (false, p)
    else
      let breakoutPrice := if (p.priceStamps 6).isZero then prices.getD b 0 else p.priceStamps 6
      let p := if (p.priceStamps 6).isZero then p.withBreakoutPriceStamp breakoutPrice else p
      if p.timeStamps 6 = 0 ∧ times.length ≤ b then (false, p)
      else
        let breakoutTime := if p.timeStamps 6 = 0 then times.getD b 0 else p.timeStamps 6
        let p := if p.timeStamps 6 = 0 then p.withBreakoutTimeStamp breakoutTime else p
        let timeDiff := times.getD currentPosition 0 - breakoutTime
        let patternStartTime :=
          if p.startIdx < times.length then times.getD p.startIdx 0 else p.timeStamps 0
        let patternLengthInDays :=
          if breakoutTime - patternStartTime ≤ 0 then 1 else breakoutTime - patternStartTime
        let p := fillReturnSlots (breakoutPrice / prices.getD currentPosition 0)
          timeDiff patternLengthInDays p
        (allReturnsFound p, p)

/-! ## iSHS detector (`ISHSDetector.cpp`) -/

/-- The `isValid` condition of `ISHSDetector::detect`: the fully mirrored
shape conjuncts (every `<` of the SHS condition becomes `>` and vice
versa). -/
def ishsIsValid (prices : List Frac) (times : List Int) (position : Nat) : Prop :=
  prices.getD (position+1) 0 < prices.getD position 0 ∧
  prices.getD (position+2) 0 < prices.getD position 0 ∧
  prices.getD (position+3) 0 < prices.getD (position+1) 0 ∧
  prices.getD (position+3) 0 < prices.getD (position+5) 0 ∧
  prices.getD (position+5) 0 < safeLinearInterpolation
    (Frac.ofInt (times.getD (position+2) 0)) (Frac.ofInt (times.getD (position+4) 0))
    (prices.getD (position+2) 0) (prices.getD (position+4) 0)
    (Frac.ofInt (times.getD (position+5) 0)) ∧
  prices.getD (position+1) 0 < safeLinearInterpolation
    (Frac.ofInt (times.getD (position+2) 0)) (Frac.ofInt (times.getD (position+4) 0))
    (prices.getD (position+2) 0) (prices.getD (position+4) 0)
    (Frac.ofInt (times.getD (position+1) 0)) ∧
  safeLinearInterpolation
    (Frac.ofInt (times.getD (position+2) 0)) (Frac.ofInt (times.getD (position+4) 0))
    (prices.getD (position+2) 0) (prices.getD (position+4) 0)
    (Frac.ofInt (times.getD position 0)) < prices.getD position 0

instance (prices : List Frac) (times : List Int) (position : Nat) :
    Decidable (ishsIsValid prices times position) := by
  unfold ishsIsValid
  infer_instance

/-- `ISHSDetector::detect`: the fully mirrored shape conditions (every `<`
becomes `>` and vice versa). -/
def ishsDetect (prices : List Frac) (times : List Int) (position : Nat) : Option PatternData :=
  if prices.length ≤ position + 5 then none
  else
    if ishsIsValid prices times position then
      some { PatternData.init with
        patternName := "iSHS"
        startIdx := position
        leftShoulderIdx := position + 1
        necklineStartIdx := position + 2
        headIdx := position + 3
        necklineEndIdx := position + 4
        rightShoulderIdx := position + 5
        breakoutIdx := none
        timeStamps := fun k => if k < 6 then times.getD (position + k) 0 else 0
        priceStamps := fun k => if k < 6 then prices.getD (position + k) 0 else 0 }
    else none

/-- The `breakoutDetected` condition of `ISHSDetector::detectBreakout`:
`priceAboveNeckline && nextPriceAboveRightShoulder`. -/
def ishsBreakoutDetected (prices : List Frac) (times : List Int) (j : Nat) (p : PatternData) :
    Prop :=
  safeLinearInterpolation
    (Frac.ofInt (p.timeStamps 2)) (Frac.ofInt (p.timeStamps 4))
    (p.priceStamps 2) (p.priceStamps 4)
    (Frac.ofInt (times.getD j 0)) < prices.getD j 0 ∧
  p.priceStamps 5 < prices.getD (j+1) 0

instance (prices : List Frac) (times : List Int) (j : Nat) (p : PatternData) :
    Decidable (ishsBreakoutDetected prices times j p) := by
  unfold ishsBreakoutDetected
  infer_instance

/-- `ISHSDetector::detectBreakout`: breakout above the neckline, confirmed by
the next price remaining above the right shoulder. -/
def ishsDetectBreakout (prices : List Frac) (times : List Int) (j : Nat) (p : PatternData) :
    Bool × PatternData :=
  if j ≤ p.rightShoulderIdx ∨ prices.length ≤ j + 1 then (false, p)
  else
    if ishsBreakoutDetected prices times j p then
      (true, { p with
        breakoutIdx := some (j + 1)
        timeStamps := fun k => if k = 6 then times.getD (j+1) 0 else p.timeStamps k
        priceStamps := fun k => if k = 6 then prices.getD (j+1) 0 else p.priceStamps k })
    else (false, p)

/-- `ISHSDetector::isPatternInvalidated`: invalidation when price falls below
the right shoulder, checked only when `position > rightShoulderIdx`. -/
def ishsIsPatternInvalidated (prices : List Frac) (position : Nat) (p : PatternData) : Bool :=
  if p.rightShoulderIdx < position then
    if prices.length ≤ position then false
    else decide (prices.getD position 0 < p.priceStamps 5)
  else false

/-- `ISHSDetector::updateReturns`: mirror of the SHS return step with the
ratio inverted (`prices[currentPosition] / breakoutPrice`). -/
def ishsUpdateReturns (prices : List Frac) (times : List Int) (currentPosition : Nat)
    (p : PatternData) : Bool × PatternData :=
  match p.breakoutIdx with
  | none => (false, p)
  | some b =>
    if currentPosition ≤ b then (false, p)
    else if prices.length ≤ currentPosition ∨ times.length ≤ currentPosition then (false, p)
    else if (p.priceStamps 6).isZero ∧ prices.length ≤ b then (false, p)
    else
      let breakoutPrice := if (p.priceStamps 6).isZero then prices.getD b 0 else p.priceStamps 6
      let p := if (p.priceStamps 6).isZero then p.withBreakoutPriceStamp breakoutPrice else p
      if p.timeStamps 6 = 0 ∧ times.length ≤ b then (false, p)
      else
        let breakoutTime := if p.timeStamps 6 = 0 then times.getD b 0 else p.timeStamps 6
        let p := if p.timeStamps 6 = 0 then p.withBreakoutTimeStamp breakoutTime else p
        let timeDiff := times.getD currentPosition 0 - breakoutTime
        let patternStartTime :=
          if p.startIdx < times.length then times.getD p.startIdx 0 else p.timeStamps 0
        let patternLengthInDays :=
          if breakoutTime - patternStartTime ≤ 0 then 1 else breakoutTime - patternStartTime
        let p := fillReturnSlots (prices.getD currentPosition 0 / breakoutPrice)
          timeDiff patternLengthInDays p
        (allReturnsFound p, p)

/-! ## Trend Tracker (`TrendTracker.cpp`) -/

/-- The `TrendTracker` state: four run counters with the first point of each
run, plus the previous counters stored by `updateTrends`.  Counters are
embedded as `Int` (C++ `int`), so their non-negativity is a provable
invariant, not a typing artifact. -/
structure TrendState where
  ascHighCount : Int
  ascLowCount : Int
  descHighCount : Int
  descLowCount : Int
  prevAscHighCount : Int
  prevAscLowCount : Int
  prevDescHighCount : Int
  prevDescLowCount : Int
  ascHighFirstIdx : Int
  ascLowFirstIdx : Int
  descHighFirstIdx : Int
  descLowFirstIdx : Int
  ascHighFirstPrice : Frac
  ascLowFirstPrice : Frac
  descHighFirstPrice : Frac
  descLowFirstPrice : Frac
  ascHighFirstTime : Int
  ascLowFirstTime : Int
  descHighFirstTime : Int
  descLowFirstTime : Int

namespace TrendState

/-- `TrendTracker::reset()`, also the constructor. -/
def init : TrendState where
  ascHighCount := 0
  ascLowCount := 0
  descHighCount := 0
  descLowCount := 0
  prevAscHighCount := 0
  prevAscLowCount := 0
  prevDescHighCount := 0
  prevDescLowCount := 0
  ascHighFirstIdx := -1
  ascLowFirstIdx := -1
  descHighFirstIdx := -1
  descLowFirstIdx := -1
  ascHighFirstPrice := -1
  ascLowFirstPrice := -1
  descHighFirstPrice := -1
  descLowFirstPrice := -1
  ascHighFirstTime := -1
  ascLowFirstTime := -1
  descHighFirstTime := -1
  descLowFirstTime := -1

end TrendState

/-- `TrendTracker::isPivotHigh`: odd pivot positions are highs. -/
def isPivotHigh (position : Nat) : Bool := position % 2 ≠ 0

/-- `TrendTracker::updateTrends`: compare `prices[position]` with
`prices[position-2]` (the previous pivot of the same parity) and update the
four run counters; returns the new state and whether any trend was reset. -/
def updateTrends (prices : List Frac) (times : List Int) (position : Nat) (s : TrendState) :
    TrendState × Bool :=
  if position < 2 then (s, false)
  else
    let s := { s with
      prevAscHighCount := s.ascHighCount
      prevAscLowCount := s.ascLowCount
      prevDescHighCount := s.descHighCount
      prevDescLowCount := s.descLowCount }
    if prices.getD (position - 2) 0 < prices.getD position 0 then
      if ¬ isPivotHigh position = true then
        let s := if s.ascLowCount = 0 then
            { s with
              ascLowFirstIdx := (position : Int) - 2
              ascLowFirstPrice := prices.getD (position - 2) 0
              ascLowFirstTime := times.getD (position - 2) 0 }
          else s
        let s := { s with ascLowCount := s.ascLowCount + 1 }
        if 0 < s.descLowCount then ({ s with descLowCount := 0 }, true) else (s, false)
      else
        let s := if s.ascHighCount = 0 then
            { s with
              ascHighFirstIdx := (position : Int) - 2
              ascHighFirstPrice := prices.getD (position - 2) 0
              ascHighFirstTime := times.getD (position - 2) 0 }
          else s
        let s := { s with ascHighCount := s.ascHighCount + 1 }
        if 0 < s.descHighCount then ({ s with descHighCount := 0 }, true) else (s, false)
    else if prices.getD position 0 < prices.getD (position - 2) 0 then
      if ¬ isPivotHigh position = true then
        let s := if s.descLowCount = 0 then
            { s with
              descLowFirstIdx := (position : Int) - 2
              descLowFirstPrice := prices.getD (position - 2) 0
              descLowFirstTime := times.getD (position - 2) 0 }
          else s
        let s := { s with descLowCount := s.descLowCount + 1 }
        if 0 < s.ascLowCount then ({ s with ascLowCount := 0 }, true) else (s, false)
      else
        let s := if s.descHighCount = 0 then
            { s with
              descHighFirstIdx := (position : Int) - 2
              descHighFirstPrice := prices.getD (position - 2) 0
              descHighFirstTime := times.getD (position - 2) 0 }
          else s
        let s := { s with descHighCount := s.descHighCount + 1 }
        if 0 < s.ascHighCount then ({ s with ascHighCount := 0 }, true) else (s, false)
    else (s, false)

/-- `TrendTracker::applyTrendInfo`: stamp the prior-trend context onto a
freshly detected pattern.  With no run in progress the sentinel values
`-1.0` / `INVALID_TIME` / `0` are stored (as values, not NA). -/
def applyTrendInfo (s : TrendState) (p : PatternData) : PatternData :=
  if p.patternName = "SHS" then
    let p :=
      if 0 < s.ascLowCount then
        { p with
          priorTrendStartPrice := some s.ascLowFirstPrice
          priorTrendStartTime := s.ascLowFirstTime
          priorTrendPointsCount := s.ascLowCount }
      else
        { p with
          priorTrendStartPrice := some (-1)
          priorTrendStartTime := INVALID_TIME
          priorTrendPointsCount := 0 }
    { p with priorTrendComplete := true, followingTrendComplete := false }
  else if p.patternName = "iSHS" then
    let p :=
      if 0 < s.descHighCount then
        { p with
          priorTrendStartPrice := some s.descHighFirstPrice
          priorTrendStartTime := s.descHighFirstTime
          priorTrendPointsCount := s.descHighCount }
      else
        { p with
          priorTrendStartPrice := some (-1)
          priorTrendStartTime := INVALID_TIME
          priorTrendPointsCount := 0 }
    { p with priorTrendComplete := true, followingTrendComplete := false }
  else p

/-- `TrendTracker::applyTrendInfoToPatterns`: following-trend update for every
not-yet-processed pattern with a confirmed breakout. -/
def applyTrendInfoToPatterns (s : TrendState) (patterns : List PatternData) : List PatternData :=
  patterns.map fun p =>
    if p.processed then p
    else if p.patternName = "SHS" ∧ p.breakoutIdx.isSome ∧ ¬ p.followingTrendComplete = true then
      if 0 < s.descLowCount ∨ 0 < s.descHighCount then
        let p :=
          if s.descHighCount ≤ s.descLowCount then
            { p with
              followingTrendStartPrice := some s.descLowFirstPrice
              followingTrendStartTime := s.descLowFirstTime
              followingTrendPointsCount := s.descLowCount }
          else
            { p with
              followingTrendStartPrice := some s.descHighFirstPrice
              followingTrendStartTime := s.descHighFirstTime
              followingTrendPointsCount := s.descHighCount }
        if 3 ≤ s.descLowCount ∨ 3 ≤ s.descHighCount then
          { p with followingTrendComplete := true }
        else p
      else p
    else if p.patternName = "iSHS" ∧ p.breakoutIdx.isSome ∧ ¬ p.followingTrendComplete = true then
      if 0 < s.ascLowCount ∨ 0 < s.ascHighCount then
        let p :=
          if s.ascHighCount ≤ s.ascLowCount then
            { p with
              followingTrendStartPrice := some s.ascLowFirstPrice
              followingTrendStartTime := s.ascLowFirstTime
              followingTrendPointsCount := s.ascLowCount }
          else
            { p with
              followingTrendStartPrice := some s.ascHighFirstPrice
              followingTrendStartTime := s.ascHighFirstTime
              followingTrendPointsCount := s.ascHighCount }
        if 3 ≤ s.ascLowCount ∨ 3 ≤ s.ascHighCount then
          { p with followingTrendComplete := true }
        else p
      else p
    else p

/-- `TrendTracker::applyFinalTrendInfo`: end-of-stream flush; forces the
following-trend of every unprocessed pattern with a breakout to complete. -/
def applyFinalTrendInfo (s : TrendState) (patterns : List PatternData) : List PatternData :=
  patterns.map fun p =>
    if p.processed then p
    else if p.patternName = "SHS" ∧ p.breakoutIdx.isSome ∧ ¬ p.followingTrendComplete = true then
      let p :=
        if 0 < s.descLowCount ∨ 0 < s.descHighCount then
          if s.descHighCount ≤ s.descLowCount then
            { p with
              followingTrendStartPrice := some s.descLowFirstPrice
              followingTrendStartTime := s.descLowFirstTime
              followingTrendPointsCount := s.descLowCount }
          else
            { p with
              followingTrendStartPrice := some s.descHighFirstPrice
              followingTrendStartTime := s.descHighFirstTime
              followingTrendPointsCount := s.descHighCount }
        else p
      { p with followingTrendComplete := true }
    else if p.patternName = "iSHS" ∧ p.breakoutIdx.isSome ∧ ¬ p.followingTrendComplete = true then
      let p :=
        if 0 < s.ascLowCount ∨ 0 < s.ascHighCount then
          if s.ascHighCount ≤ s.ascLowCount then
            { p with
              followingTrendStartPrice := some s.ascLowFirstPrice
              followingTrendStartTime := s.ascLowFirstTime
              followingTrendPointsCount := s.ascLowCount }
          else
            { p with
              followingTrendStartPrice := some s.ascHighFirstPrice
              followingTrendStartTime := s.ascHighFirstTime
              followingTrendPointsCount := s.ascHighCount }
        else p
      { p with followingTrendComplete := true }
    else p

/-- The tracker state after the main loop has processed positions
`0, …, n-1` (the tracker's evolution depends only on the pivot series, not on
the candidate set). -/
def trendStateAt (prices : List Frac) (times : List Int) : Nat → TrendState
  | 0 => TrendState.init
  | n + 1 => (updateTrends prices times n (trendStateAt prices times n)).1

/-! ## Scan Orchestrator (`findPatterns.cpp`) -/

/-- Dispatch `isPatternInvalidated` through the pattern's stored detector
(`pattern.detector` points at the detector that created the pattern, which is
determined by `patternName`). -/
def detectorIsInvalidated (prices : List Frac) (position : Nat) (p : PatternData) : Bool :=
  if p.patternName = "SHS" then shsIsPatternInvalidated prices position p
  else ishsIsPatternInvalidated prices position p

/-- Dispatch `detectBreakout` through the pattern's stored detector. -/
def detectorDetectBreakout (prices : List Frac) (times : List Int) (j : Nat) (p : PatternData) :
    Bool × PatternData :=
  if p.patternName = "SHS" then shsDetectBreakout prices times j p
  else ishsDetectBreakout prices times j p

/-- Dispatch `updateReturns` through the pattern's stored detector. -/
def detectorUpdateReturns (prices : List Frac) (times : List Int) (pos : Nat) (p : PatternData) :
    Bool × PatternData :=
  if p.patternName = "SHS" then shsUpdateReturns prices times pos p
  else ishsUpdateReturns prices times pos p

/-- The inner breakout scan of `findPatterns` (lines 287-306): walk
`j = start, start+1, …` while `j ≤ stop ∧ j + 1 < |prices|`; invalidation is
checked first at each `j`, then the breakout; on breakout, `updateReturns` is
called once at `j` (a no-op, since `j ≤ breakoutIdx`) and the scan stops.
Structural recursion on an explicit iteration budget. -/
def breakoutScanAux (prices : List Frac) (times : List Int) (stop : Nat) :
    Nat → Nat → PatternData → PatternData
  | _, 0, p => p
  | j, fuel + 1, p =>
    if j ≤ stop ∧ j + 1 < prices.length then
      if detectorIsInvalidated prices j p then { p with processed := true }
      else
        match detectorDetectBreakout prices times j p with
        | (true, p2) => (detectorUpdateReturns prices times j p2).2
        | (false, p2) => breakoutScanAux prices times stop (j + 1) fuel p2
    else p

/-- The inner breakout scan, from `start` to `stop` inclusive (bounds
permitting). -/
def breakoutScan (prices : List Frac) (times : List Int) (start stop : Nat) (p : PatternData) :
    PatternData :=
  breakoutScanAux prices times stop start (stop + 1 - start) p

/-- One monitoring step for a single candidate at pivot position `i`
(original-series position `currentOriginalPos`): the per-pattern body of the
second phase of the main loop. -/
def monitorPattern (indexFilter : List Nat) (origPrices : List Frac) (origTimes : List Int)
    (i currentOriginalPos : Nat) (p : PatternData) : PatternData :=
  if p.processed then p
  else if i < p.rightShoulderIdx then p
  else if detectorIsInvalidated origPrices currentOriginalPos p then { p with processed := true }
  else if p.breakoutIdx.isNone then
    let rightShoulderOrigPos := indexFilter.getD p.rightShoulderIdx 0
    breakoutScan origPrices origTimes (rightShoulderOrigPos + 1) currentOriginalPos p
  else
    let (returnsComplete, p2) := detectorUpdateReturns origPrices origTimes currentOriginalPos p
    if returnsComplete then { p2 with processed := true } else p2

/-- One iteration of the main pattern-detection loop at pivot position `i`:
trend update (and following-trend attachment on reset), the two detectors in
order SHS then iSHS, then breakout/invalidation monitoring of the active
set. -/
def scanStep (indexFilter : List Nat) (origPrices : List Frac) (origTimes : List Int)
    (queryPrices : List Frac) (queryTimes : List Int)
    (st : TrendState × List PatternData) (i : Nat) : TrendState × List PatternData :=
  let (tracker, trendReset) := updateTrends queryPrices queryTimes i st.1
  let patterns := if trendReset then applyTrendInfoToPatterns tracker st.2 else st.2
  let patterns :=
    match shsDetect queryPrices queryTimes i with
    | some p => patterns ++ [applyTrendInfo tracker p]
    | none => patterns
  let patterns :=
    match ishsDetect queryPrices queryTimes i with
    | some p => patterns ++ [applyTrendInfo tracker p]
    | none => patterns
  let patterns :=
    if patterns.isEmpty then patterns
    else
      let currentOriginalPos := indexFilter.getD i 0
      if origPrices.length ≤ currentOriginalPos then patterns
      else if origPrices.length ≤ currentOriginalPos + 1 then patterns
      else patterns.map (monitorPattern indexFilter origPrices origTimes i currentOriginalPos)
  (tracker, patterns)

/-- The pivot positions visited by the main loop:
`for (size_t i = 0; i < QuerySeries_prices.size() - 6; ++i)`. -/
def scanPositions (m : Nat) : List Nat := List.range (m - 6)

/-- One output row of `findPatterns` (the per-pattern slice of the three
result data frames). -/
structure PatternRecord where
  patternName : String
  validPattern : Bool
  firstIndexPrePro : Nat
  firstIndexOriginal : Option Nat
  breakoutIndexinOrig : Option Nat
  keyTimes : Nat → Int
  keyPrices : Nat → Frac
  priorTrendStartPrice : Option Frac
  priorTrendStartTime : Int
  priorTrendPointsCount : Int
  followingTrendStartPrice : Option Frac
  followingTrendStartTime : Int
  followingTrendPointsCount : Int
  timeStampBreakout : Option Int
  priceStampBreakout : Option Frac
  returns : Nat → RetEntry
  relReturns : Nat → RetEntry

/-- The result-emission block of `findPatterns` (lines 338-441) for one
pattern.  `+1` converts to R indexing; an invalid pattern gets NA breakout
stamps and NA returns.  (The `timeStamps.size() <= 6` and undersized-returns
fallbacks are vacuous: the vectors always hold their constructor sizes.) -/
def mkRecord (indexFilter : List Nat) (p : PatternData) : PatternRecord :=
  let isValid := p.breakoutIdx.isSome
  { patternName := p.patternName
    validPattern := isValid
    firstIndexPrePro := p.startIdx + 1
    firstIndexOriginal :=
      if p.startIdx < indexFilter.length then some (indexFilter.getD p.startIdx 0 + 1) else none
    breakoutIndexinOrig := p.breakoutIdx
    keyTimes := p.timeStamps
    keyPrices := p.priceStamps
    priorTrendStartPrice := p.priorTrendStartPrice
    priorTrendStartTime := p.priorTrendStartTime
    priorTrendPointsCount := p.priorTrendPointsCount
    followingTrendStartPrice := p.followingTrendStartPrice
    followingTrendStartTime := p.followingTrendStartTime
    followingTrendPointsCount := p.followingTrendPointsCount
    timeStampBreakout := if isValid then some (p.timeStamps 6) else none
    priceStampBreakout := if isValid then some (p.priceStamps 6) else none
    returns := if isValid then p.returns else fun _ => RetEntry.na
    relReturns := if isValid then p.relReturns else fun _ => RetEntry.na }

/-- The result of `findPatterns`: the explicit error list returned when the
pivot filter has fewer than 7 elements, the `createEmptyResults()` empty
result, or the populated result list. -/
inductive FindResult where
  | errorResult : FindResult
  | emptyResults : FindResult
  | results : List PatternRecord → FindResult

/-- Number of emitted candidate records. -/
def FindResult.recordCount : FindResult → Nat
  | .errorResult => 0
  | .emptyResults => 0
  | .results l => l.length

/-- First emitted record, if any. -/
def FindResult.firstRecord : FindResult → Option PatternRecord
  | .errorResult => none
  | .emptyResults => none
  | .results l => l.head?

/-- `findPatterns(PrePro_indexFilter, Original_times, Original_prices)`.

An out-of-range pivot index makes the Rcpp subset expression
`Original_times[PrePro_indexFilter]` throw, and the enclosing catch-all
returns `createEmptyResults()`; that caught path is embedded as the explicit
`emptyResults` branch.  No other validation exists: in particular the lengths
of `Original_times` and `Original_prices` are never compared. -/
def findPatterns (indexFilter : List Nat) (origTimes : List Int) (origPrices : List Frac) :
    FindResult :=
  if indexFilter.length < 7 then FindResult.errorResult
  else if indexFilter.any (fun k => decide (origTimes.length ≤ k) ∨ decide (origPrices.length ≤ k)) then
    FindResult.emptyResults
  else
    let queryTimes := indexFilter.map (fun k => origTimes.getD k 0)
    let queryPrices := indexFilter.map (fun k => origPrices.getD k 0)
    if queryPrices.length ≤ 6 then FindResult.emptyResults
    else
      let final := (scanPositions queryPrices.length).foldl
        (scanStep indexFilter origPrices origTimes queryPrices queryTimes)
        (TrendState.init, [])
      let patterns := applyFinalTrendInfo final.1 final.2
      let records := patterns.map (mkRecord indexFilter)
      if records.isEmpty then FindResult.emptyResults else FindResult.results records

/-! ## Spec-side definitions and helper lemmas -/

/-- Spec-side neckline: the line through `(t2,p2)` and `(t4,p4)` evaluated at
`t` (the spec's `neckline(t)`), written as the two-point line formula. -/
def necklineLine (t2 t4 : Int) (p2 p4 : Frac) (t : Int) : Frac :=
  p2 + (Frac.ofInt t - Frac.ofInt t2) * (p4 - p2) / (Frac.ofInt t4 - Frac.ofInt t2)

theorem intSep_not_degen {a b : Int} (h : a < b) :
    ¬ Frac.abs (Frac.ofInt b - Frac.ofInt a) < degenEps := by
  show ¬ |b * 1 - a * 1| * 10 ^ 10 < 1 * (1 * 1)
  have h1 : (1 : Int) ≤ b * 1 - a * 1 := by omega
  rw [abs_of_pos (by omega)]
  nlinarith

theorem interp_eq_line {t2 t4 : Int} (p2 p4 : Frac) (t : Int) (h : t2 < t4) :
    safeLinearInterpolation (Frac.ofInt t2) (Frac.ofInt t4) p2 p4 (Frac.ofInt t) =
      necklineLine t2 t4 p2 p4 t := by
  rw [safeLinearInterpolation, necklineLine, if_neg (intSep_not_degen h)]

theorem shsDetect_isSome_iff (prices : List Frac) (times : List Int) (position : Nat)
    (hlen : position + 5 < prices.length) :
    (shsDetect prices times position).isSome = true ↔ shsIsValid prices times position := by
  rw [shsDetect, if_neg (by omega)]
  split
  · simp_all
  · simp_all

theorem ishsDetect_isSome_iff (prices : List Frac) (times : List Int) (position : Nat)
    (hlen : position + 5 < prices.length) :
    (ishsDetect prices times position).isSome = true ↔ ishsIsValid prices times position := by
  rw [ishsDetect, if_neg (by omega)]
  split
  · simp_all
  · simp_all

theorem shsDetectBreakout_fst_iff (prices : List Frac) (times : List Int) (j : Nat)
    (p : PatternData) (hguard : p.rightShoulderIdx < j) (hj : j + 1 < prices.length) :
    (shsDetectBreakout prices times j p).1 = true ↔ shsBreakoutDetected prices times j p := by
  rw [shsDetectBreakout, if_neg (by omega)]
  split
  · simp_all
  · simp_all

theorem ishsDetectBreakout_fst_iff (prices : List Frac) (times : List Int) (j : Nat)
    (p : PatternData) (hguard : p.rightShoulderIdx < j) (hj : j + 1 < prices.length) :
    (ishsDetectBreakout prices times j p).1 = true ↔ ishsBreakoutDetected prices times j p := by
  rw [ishsDetectBreakout, if_neg (by omega)]
  split
  · simp_all
  · simp_all

theorem shsDetectBreakout_true_record (prices : List Frac) (times : List Int) (j : Nat)
    (p : PatternData) (htrue : (shsDetectBreakout prices times j p).1 = true) :
    (shsDetectBreakout prices times j p).2.breakoutIdx = some (j+1) ∧
    (shsDetectBreakout prices times j p).2.timeStamps 6 = times.getD (j+1) 0 ∧
    (shsDetectBreakout prices times j p).2.priceStamps 6 = prices.getD (j+1) 0 := by
  rw [shsDetectBreakout] at htrue ⊢
  by_cases hg : j ≤ p.rightShoulderIdx ∨ prices.length ≤ j + 1
  · rw [if_pos hg] at htrue
    exact absurd htrue (by simp)
  · rw [if_neg hg] at htrue ⊢
    by_cases hc : shsBreakoutDetected prices times j p
    · rw [if_pos hc]
      exact ⟨rfl, by simp, by simp⟩
    · rw [if_neg hc] at htrue
      exact absurd htrue (by simp)

theorem ishsDetectBreakout_true_record (prices : List Frac) (times : List Int) (j : Nat)
    (p : PatternData) (htrue : (ishsDetectBreakout prices times j p).1 = true) :
    (ishsDetectBreakout prices times j p).2.breakoutIdx = some (j+1) ∧
    (ishsDetectBreakout prices times j p).2.timeStamps 6 = times.getD (j+1) 0 ∧
    (ishsDetectBreakout prices times j p).2.priceStamps 6 = prices.getD (j+1) 0 := by
  rw [ishsDetectBreakout] at htrue ⊢
  by_cases hg : j ≤ p.rightShoulderIdx ∨ prices.length ≤ j + 1
  · rw [if_pos hg] at htrue
    exact absurd htrue (by simp)
  · rw [if_neg hg] at htrue ⊢
    by_cases hc : ishsBreakoutDetected prices times j p
    · rw [if_pos hc]
      exact ⟨rfl, by simp, by simp⟩
    · rw [if_neg hc] at htrue
      exact absurd htrue (by simp)

theorem shsDetectBreakout_false_id (prices : List Frac) (times : List Int) (j : Nat)
    (p : PatternData) (hfalse : (shsDetectBreakout prices times j p).1 = false) :
    (shsDetectBreakout prices times j p).2 = p := by
  rw [shsDetectBreakout] at hfalse ⊢
  by_cases hg : j ≤ p.rightShoulderIdx ∨ prices.length ≤ j + 1
  · rw [if_pos hg]
  · rw [if_neg hg] at hfalse ⊢
    by_cases hc : shsBreakoutDetected prices times j p
    · rw [if_pos hc] at hfalse
      exact absurd hfalse (by simp)
    · rw [if_neg hc]

theorem ishsDetectBreakout_false_id (prices : List Frac) (times : List Int) (j : Nat)
    (p : PatternData) (hfalse : (ishsDetectBreakout prices times j p).1 = false) :
    (ishsDetectBreakout prices times j p).2 = p := by
  rw [ishsDetectBreakout] at hfalse ⊢
  by_cases hg : j ≤ p.rightShoulderIdx ∨ prices.length ≤ j + 1
  · rw [if_pos hg]
  · rw [if_neg hg] at hfalse ⊢
    by_cases hc : ishsBreakoutDetected prices times j p
    · rw [if_pos hc] at hfalse
      exact absurd hfalse (by simp)
    · rw [if_neg hc]

theorem detectorDetectBreakout_true_breakoutIdx (prices : List Frac) (times : List Int) (j : Nat)
    (p : PatternData) (htrue : (detectorDetectBreakout prices times j p).1 = true) :
    (detectorDetectBreakout prices times j p).2.breakoutIdx = some (j+1) := by
  rw [detectorDetectBreakout] at htrue ⊢
  by_cases hn : p.patternName = "SHS"
  · rw [if_pos hn] at htrue ⊢
    exact (shsDetectBreakout_true_record prices times j p htrue).1
  · rw [if_neg hn] at htrue ⊢
    exact (ishsDetectBreakout_true_record prices times j p htrue).1

theorem detectorDetectBreakout_false_id (prices : List Frac) (times : List Int) (j : Nat)
    (p : PatternData) (hfalse : (detectorDetectBreakout prices times j p).1 = false) :
    (detectorDetectBreakout prices times j p).2 = p := by
  rw [detectorDetectBreakout] at hfalse ⊢
  by_cases hn : p.patternName = "SHS"
  · rw [if_pos hn] at hfalse ⊢
    exact shsDetectBreakout_false_id prices times j p hfalse
  · rw [if_neg hn] at hfalse ⊢
    exact ishsDetectBreakout_false_id prices times j p hfalse

theorem fillReturnSlots_breakoutIdx (r : Frac) (td L : Int) (p : PatternData) :
    (fillReturnSlots r td L p).breakoutIdx = p.breakoutIdx := rfl

theorem withBreakoutPriceStamp_breakoutIdx (v : Frac) (p : PatternData) :
    (p.withBreakoutPriceStamp v).breakoutIdx = p.breakoutIdx := rfl

theorem withBreakoutTimeStamp_breakoutIdx (v : Int) (p : PatternData) :
    (p.withBreakoutTimeStamp v).breakoutIdx = p.breakoutIdx := rfl

theorem shsUpdateReturns_snd_breakoutIdx (prices : List Frac) (times : List Int) (pos : Nat)
    (p : PatternData) : (shsUpdateReturns prices times pos p).2.breakoutIdx = p.breakoutIdx := by
  rw [shsUpdateReturns]
  cases hb : p.breakoutIdx with
  | none => exact hb
  | some b =>
    dsimp only
    simp only [apply_ite Prod.snd, apply_ite PatternData.breakoutIdx,
      fillReturnSlots_breakoutIdx, withBreakoutPriceStamp_breakoutIdx,
      withBreakoutTimeStamp_breakoutIdx, ite_self, hb]

theorem ishsUpdateReturns_snd_breakoutIdx (prices : List Frac) (times : List Int) (pos : Nat)
    (p : PatternData) : (ishsUpdateReturns prices times pos p).2.breakoutIdx = p.breakoutIdx := by
  rw [ishsUpdateReturns]
  cases hb : p.breakoutIdx with
  | none => exact hb
  | some b =>
    dsimp only
    simp only [apply_ite Prod.snd, apply_ite PatternData.breakoutIdx,
      fillReturnSlots_breakoutIdx, withBreakoutPriceStamp_breakoutIdx,
      withBreakoutTimeStamp_breakoutIdx, ite_self, hb]

theorem detectorUpdateReturns_snd_breakoutIdx (prices : List Frac) (times : List Int) (pos : Nat)
    (p : PatternData) : (detectorUpdateReturns prices times pos p).2.breakoutIdx = p.breakoutIdx := by
  rw [detectorUpdateReturns]
  by_cases hn : p.patternName = "SHS"
  · rw [if_pos hn]
    exact shsUpdateReturns_snd_breakoutIdx prices times pos p
  · rw [if_neg hn]
    exact ishsUpdateReturns_snd_breakoutIdx prices times pos p

theorem breakoutScanAux_some_gt (prices : List Frac) (times : List Int) (stop : Nat) :
    ∀ (fuel j : Nat) (p : PatternData) (b : Nat), p.breakoutIdx = none →
      (breakoutScanAux prices times stop j fuel p).breakoutIdx = some b → j < b := by
  intro fuel
  induction fuel with
  | zero =>
    intro j p b hb hres
    rw [breakoutScanAux, hb] at hres
    exact absurd hres (by simp)
  | succ n ih =>
    intro j p b hb hres
    rw [breakoutScanAux] at hres
    split at hres
    · split at hres
      · rw [show ({ p with processed := true } : PatternData).breakoutIdx = p.breakoutIdx from rfl,
          hb] at hres
        exact absurd hres (by simp)
      · rcases hdd : detectorDetectBreakout prices times j p with ⟨fst, p2⟩
        rw [hdd] at hres
        cases fst with
        | true =>
          dsimp only at hres
          rw [detectorUpdateReturns_snd_breakoutIdx] at hres
          have h1 := detectorDetectBreakout_true_breakoutIdx prices times j p (by rw [hdd])
          rw [hdd] at h1
          dsimp only at h1
          rw [h1] at hres
          injection hres with h3
          omega
        | false =>
          dsimp only at hres
          have h2 : p2 = p := by
            have h4 := detectorDetectBreakout_false_id prices times j p (by rw [hdd])
            rw [hdd] at h4
            exact h4
          have h5 := ih (j+1) p2 b (by rw [h2, hb]) hres
          omega
    · rw [hb] at hres
      exact absurd hres (by simp)

/-- The C6 invariant: all four run counters non-negative, and per parity at
most one direction non-zero. -/
def TrendInvariant (s : TrendState) : Prop :=
  0 ≤ s.ascHighCount ∧ 0 ≤ s.ascLowCount ∧ 0 ≤ s.descHighCount ∧ 0 ≤ s.descLowCount ∧
  (s.ascLowCount = 0 ∨ s.descLowCount = 0) ∧ (s.ascHighCount = 0 ∨ s.descHighCount = 0)

theorem updateTrends_step (prices : List Frac) (times : List Int) (position : Nat)
    (s : TrendState) (hs : TrendInvariant s) :
    TrendInvariant (updateTrends prices times position s).1 ∧
    (0 < s.descLowCount ∧ (updateTrends prices times position s).1.descLowCount = 0 →
      (updateTrends prices times position s).1.ascLowCount = 1) ∧
    (0 < s.ascLowCount ∧ (updateTrends prices times position s).1.ascLowCount = 0 →
      (updateTrends prices times position s).1.descLowCount = 1) ∧
    (0 < s.descHighCount ∧ (updateTrends prices times position s).1.descHighCount = 0 →
      (updateTrends prices times position s).1.ascHighCount = 1) ∧
    (0 < s.ascHighCount ∧ (updateTrends prices times position s).1.ascHighCount = 0 →
      (updateTrends prices times position s).1.descHighCount = 1) := by
  unfold TrendInvariant at hs ⊢
  rw [updateTrends]
  dsimp only
  split_ifs <;> simp_all <;> omega

theorem pairwise_head_add_le : ∀ (l : List Nat), List.Pairwise (· < ·) l →
    ∀ k, k < l.length → l.getD 0 0 + k ≤ l.getD k 0
  | [] => by
    intro _ k hk
    simp at hk
  | a :: t => by
    intro hp k hk
    rcases List.pairwise_cons.mp hp with ⟨ha, ht⟩
    cases k with
    | zero => simp
    | succ m =>
      cases t with
      | nil =>
        simp at hk
      | cons b t2 =>
        have hbm := pairwise_head_add_le (b :: t2) ht m (by simpa using hk)
        have hab : a < b := ha b (by simp)
        have hb0 : (b :: t2 : List Nat).getD 0 0 = b := rfl
        rw [hb0] at hbm
        show (a :: b :: t2 : List Nat).getD 0 0 + (m+1) ≤ (b :: t2 : List Nat).getD m 0
        have hz : (a :: b :: t2 : List Nat).getD 0 0 = a := rfl
        rw [hz]
        omega

/-- A strictly increasing pivot filter satisfies `index[k] ≥ k`, so every
original-series position scanned by the monitoring loop (which starts at
`index[rightShoulderIdx] + 1`) strictly exceeds the pivot-space
`rightShoulderIdx`. -/
theorem pairwise_le_getD (l : List Nat) (hp : List.Pairwise (· < ·) l) (k : Nat)
    (hk : k < l.length) : k ≤ l.getD k 0 := by
  have h := pairwise_head_add_le l hp k hk
  omega

theorem monitorPattern_processed_id (idx : List Nat) (prices : List Frac) (times : List Int)
    (i cpos : Nat) (q : PatternData) (hq : q.processed = true) :
    monitorPattern idx prices times i cpos q = q := by
  rw [monitorPattern, if_pos hq]

theorem mkRecord_invalid (idx : List Nat) (q : PatternData) (hq : q.breakoutIdx = none) :
    (mkRecord idx q).validPattern = false := by
  rw [mkRecord]
  dsimp only
  rw [hq]
  rfl

theorem shsUpdateReturns_eq_fill (prices : List Frac) (times : List Int) (pos b : Nat)
    (p : PatternData) (hb : p.breakoutIdx = some b) (hpos : b < pos)
    (hlp : pos < prices.length) (hlt : pos < times.length)
    (hz : ¬ (p.priceStamps 6).isZero = true) (ht6 : ¬ p.timeStamps 6 = 0) :
    shsUpdateReturns prices times pos p =
      (allReturnsFound (fillReturnSlots (p.priceStamps 6 / prices.getD pos 0)
          (times.getD pos 0 - p.timeStamps 6)
          (if p.timeStamps 6 -
              (if p.startIdx < times.length then times.getD p.startIdx 0 else p.timeStamps 0) ≤ 0
           then 1
           else p.timeStamps 6 -
              (if p.startIdx < times.length then times.getD p.startIdx 0 else p.timeStamps 0)) p),
       fillReturnSlots (p.priceStamps 6 / prices.getD pos 0)
          (times.getD pos 0 - p.timeStamps 6)
          (if p.timeStamps 6 -
              (if p.startIdx < times.length then times.getD p.startIdx 0 else p.timeStamps 0) ≤ 0
           then 1
           else p.timeStamps 6 -
              (if p.startIdx < times.length then times.getD p.startIdx 0 else p.timeStamps 0)) p) := by
  have g1 : ¬ pos ≤ b := by omega
  have g2 : ¬ (prices.length ≤ pos ∨ times.length ≤ pos) := by omega
  have g3 : ¬ ((p.priceStamps 6).isZero = true ∧ prices.length ≤ b) := fun h => hz h.1
  have g4 : ¬ (p.timeStamps 6 = 0 ∧ times.length ≤ b) := fun h => ht6 h.1
  rw [shsUpdateReturns, hb]
  dsimp only
  simp only [if_neg g1, if_neg g2, if_neg g3, if_neg hz, if_neg g4, if_neg ht6]

theorem ishsUpdateReturns_eq_fill (prices : List Frac) (times : List Int) (pos b : Nat)
    (p : PatternData) (hb : p.breakoutIdx = some b) (hpos : b < pos)
    (hlp : pos < prices.length) (hlt : pos < times.length)
    (hz : ¬ (p.priceStamps 6).isZero = true) (ht6 : ¬ p.timeStamps 6 = 0) :
    ishsUpdateReturns prices times pos p =
      (allReturnsFound (fillReturnSlots (prices.getD pos 0 / p.priceStamps 6)
          (times.getD pos 0 - p.timeStamps 6)
          (if p.timeStamps 6 -
              (if p.startIdx < times.length then times.getD p.startIdx 0 else p.timeStamps 0) ≤ 0
           then 1
           else p.timeStamps 6 -
              (if p.startIdx < times.length then times.getD p.startIdx 0 else p.timeStamps 0)) p),
       fillReturnSlots (prices.getD pos 0 / p.priceStamps 6)
          (times.getD pos 0 - p.timeStamps 6)
          (if p.timeStamps 6 -
              (if p.startIdx < times.length then times.getD p.startIdx 0 else p.timeStamps 0) ≤ 0
           then 1
           else p.timeStamps 6 -
              (if p.startIdx < times.length then times.getD p.startIdx 0 else p.timeStamps 0)) p) := by
  have g1 : ¬ pos ≤ b := by omega
  have g2 : ¬ (prices.length ≤ pos ∨ times.length ≤ pos) := by omega
  have g3 : ¬ ((p.priceStamps 6).isZero = true ∧ prices.length ≤ b) := fun h => hz h.1
  have g4 : ¬ (p.timeStamps 6 = 0 ∧ times.length ≤ b) := fun h => ht6 h.1
  rw [ishsUpdateReturns, hb]
  dsimp only
  simp only [if_neg g1, if_neg g2, if_neg g3, if_neg hz, if_neg g4, if_neg ht6]

theorem fillReturnSlots_returns_spec (r : Frac) (td L : Int) (p : PatternData) (w : Nat)
    (hw : w < 6) :
    (fillReturnSlots r td L p).returns w =
      if ¬ p.fixedWindowsFound w = true ∧ fixedWindows w < td then
        if w = 0 then RetEntry.logRatio r else RetEntry.ratio r
      else p.returns w := by
  rw [fillReturnSlots]
  dsimp only
  simp only [hw, true_and]

theorem fillReturnSlots_relReturns_spec (r : Frac) (td L : Int) (p : PatternData) (w : Nat)
    (hw : w < 5) :
    (fillReturnSlots r td L p).relReturns w =
      if ¬ p.relWindowsFound w = true ∧ relWindows L w < td then RetEntry.ratio r
      else p.relReturns w := by
  rw [fillReturnSlots]
  dsimp only
  simp only [hw, true_and]

theorem fillReturnSlots_found_spec (r : Frac) (td L : Int) (p : PatternData) (w : Nat)
    (hw : w < 6) :
    ((fillReturnSlots r td L p).fixedWindowsFound w = true ↔
      (p.fixedWindowsFound w = true ∨ fixedWindows w < td)) := by
  rw [fillReturnSlots]
  dsimp only
  simp only [hw, true_and]
  cases hf : p.fixedWindowsFound w <;> by_cases hd : fixedWindows w < td <;> simp_all

theorem fillReturnSlots_relFound_spec (r : Frac) (td L : Int) (p : PatternData) (w : Nat)
    (hw : w < 5) :
    ((fillReturnSlots r td L p).relWindowsFound w = true ↔
      (p.relWindowsFound w = true ∨ relWindows L w < td)) := by
  rw [fillReturnSlots]
  dsimp only
  simp only [hw, true_and]
  cases hf : p.relWindowsFound w <;> by_cases hd : relWindows L w < td <;> simp_all

theorem findPatterns_short_input (indexFilter : List Nat) (origTimes : List Int)
    (origPrices : List Frac) (h : indexFilter.length < 7) :
    findPatterns indexFilter origTimes origPrices = FindResult.errorResult := by
  rw [findPatterns, if_pos h]

/-! ## Concrete inputs for witnesses and counterexamples -/

/-- Identity pivot filter over 7 samples. -/
def exIdx7 : List Nat := [0, 1, 2, 3, 4, 5, 6]

/-- A pivot filter of length 6 (below the length-7 precondition). -/
def exIdx6 : List Nat := [0, 1, 2, 3, 4, 5]

def exTimes7 : List Int := [0, 5, 10, 15, 20, 25, 30]

/-- 7 prices whose first 6 form the synthetic SHS of the spec. -/
def exPrices7 : List Frac := [100, 130, 110, 150, 115, 125, 124]

/-- A time vector longer than `exPrices7`: the array-length-match
precondition is violated. -/
def exTimes8 : List Int := [0, 5, 10, 15, 20, 25, 30, 35]

/-- 7 prices whose LAST 6 (the window starting at pivot `M-6 = 1`) form an
SHS, while the window starting at 0 matches neither shape. -/
def shiftPrices : List Frac := [200, 100, 130, 110, 150, 115, 125]

/-- Round-trip input: 13 samples, identity filter, SHS at pivots 0..5,
breakout at original position 6 (confirmed by sample 7). -/
def rtIdx : List Nat := [0, 1, 2, 3, 4, 5, 6, 7, 8, 9, 10, 11, 12]

def rtT : List Int := [0, 5, 10, 15, 20, 25, 26, 27, 28, 29, 30, 31, 32]

def rtP : List Frac := [100, 130, 110, 150, 115, 125, 104, 103, 102, 101, 99, 98, 97]

/-- The SHS candidate detected at position 0 of the round-trip input. -/
def rtPattern : PatternData := (shsDetect rtP rtT 0).getD PatternData.init

/-- The round-trip candidate after its breakout is recorded at `j = 6`. -/
def rtBrkPattern : PatternData := (shsDetectBreakout rtP rtT 6 rtPattern).2

/-- Input on which the SHS candidate is invalidated at the very first scanned
sample: `price[6] = 130` is above the right shoulder `125`. -/
def invPrices : List Frac := [100, 130, 110, 150, 115, 125, 130, 120]

def invTimes : List Int := [0, 5, 10, 15, 20, 25, 26, 27]

def invPattern : PatternData := (shsDetect invPrices invTimes 0).getD PatternData.init

/-- The synthetic 6-pivot SHS example (query series). -/
def sQp : List Frac := [100, 130, 110, 150, 115, 125]

def sQt : List Int := [0, 5, 10, 15, 20, 25]

/-- Mirror image of `sQp` (reflected through 125): a 6-pivot iSHS. -/
def mirQp : List Frac := [150, 120, 140, 100, 135, 125]

/-- The iSHS candidate detected on the mirrored pivots. -/
def mirPattern : PatternData := (ishsDetect mirQp sQt 0).getD PatternData.init

/-- Pivot series exhibiting a descending-low run that is reset by an
ascending low at position 4. -/
def wReset : List Frac := [5, 9, 4, 9, 6, 9]

def wResetT : List Int := [0, 1, 2, 3, 4, 5]

/-! ## Claims -/

/-- C3: Given 6 consecutive pivots, the Shape Matcher reports an SHS
candidate iff `p0<p1 ∧ p0<p2 ∧ p1<p3 ∧ p5<p3 ∧ p5>neckline(t5) ∧
p1>neckline(t1) ∧ p0<neckline(t0)`, where `neckline` is the line through
`(t2,p2)` and `(t4,p4)`; and an iSHS candidate iff the fully mirrored
inequalities hold. -/
theorem shape_matcher_conditions (prices : List Frac) (times : List Int) (position : Nat)
    (hlen : position + 5 < prices.length)
    (ht : times.getD (position+2) 0 < times.getD (position+4) 0) :
    ((shsDetect prices times position).isSome = true ↔
      (prices.getD position 0 < prices.getD (position+1) 0 ∧
       prices.getD position 0 < prices.getD (position+2) 0 ∧
       prices.getD (position+1) 0 < prices.getD (position+3) 0 ∧
       prices.getD (position+5) 0 < prices.getD (position+3) 0 ∧
       necklineLine (times.getD (position+2) 0) (times.getD (position+4) 0)
         (prices.getD (position+2) 0) (prices.getD (position+4) 0)
         (times.getD (position+5) 0) < prices.getD (position+5) 0 ∧
       necklineLine (times.getD (position+2) 0) (times.getD (position+4) 0)
         (prices.getD (position+2) 0) (prices.getD (position+4) 0)
         (times.getD (position+1) 0) < prices.getD (position+1) 0 ∧
       prices.getD position 0 <
         necklineLine (times.getD (position+2) 0) (times.getD (position+4) 0)
           (prices.getD (position+2) 0) (prices.getD (position+4) 0)
           (times.getD position 0))) ∧
    ((ishsDetect prices times position).isSome = true ↔
      (prices.getD (position+1) 0 < prices.getD position 0 ∧
       prices.getD (position+2) 0 < prices.getD position 0 ∧
       prices.getD (position+3) 0 < prices.getD (position+1) 0 ∧
       prices.getD (position+3) 0 < prices.getD (position+5) 0 ∧
       prices.getD (position+5) 0 <
         necklineLine (times.getD (position+2) 0) (times.getD (position+4) 0)
           (prices.getD (position+2) 0) (prices.getD (position+4) 0)
           (times.getD (position+5) 0) ∧
       prices.getD (position+1) 0 <
         necklineLine (times.getD (position+2) 0) (times.getD (position+4) 0)
           (prices.getD (position+2) 0) (prices.getD (position+4) 0)
           (times.getD (position+1) 0) ∧
       necklineLine (times.getD (position+2) 0) (times.getD (position+4) 0)
         (prices.getD (position+2) 0) (prices.getD (position+4) 0)
         (times.getD position 0) < prices.getD position 0)) := by
  have h1 := shsDetect_isSome_iff prices times position hlen
  have h2 := ishsDetect_isSome_iff prices times position hlen
  unfold shsIsValid at h1
  unfold ishsIsValid at h2
  rw [interp_eq_line _ _ _ ht, interp_eq_line _ _ _ ht, interp_eq_line _ _ _ ht] at h1 h2
  exact ⟨h1, h2⟩

/-- C3 witness: the synthetic SHS pivots `(0,100) (5,130) (10,110) (15,150)
(20,115) (25,125)` satisfy exactly the SHS side of the characterization. -/
theorem shape_matcher_conditions_witness :
    (0 : Nat) + 5 < sQp.length ∧ sQt.getD 2 0 < sQt.getD 4 0 ∧
    ((shsDetect sQp sQt 0).isSome = true ↔
      (sQp.getD 0 0 < sQp.getD 1 0 ∧
       sQp.getD 0 0 < sQp.getD 2 0 ∧
       sQp.getD 1 0 < sQp.getD 3 0 ∧
       sQp.getD 5 0 < sQp.getD 3 0 ∧
       necklineLine (sQt.getD 2 0) (sQt.getD 4 0) (sQp.getD 2 0) (sQp.getD 4 0)
         (sQt.getD 5 0) < sQp.getD 5 0 ∧
       necklineLine (sQt.getD 2 0) (sQt.getD 4 0) (sQp.getD 2 0) (sQp.getD 4 0)
         (sQt.getD 1 0) < sQp.getD 1 0 ∧
       sQp.getD 0 0 <
         necklineLine (sQt.getD 2 0) (sQt.getD 4 0) (sQp.getD 2 0) (sQp.getD 4 0)
           (sQt.getD 0 0))) :=
  ⟨by decide, by decide,
    (shape_matcher_conditions sQp sQt 0 (by decide) (by decide)).1⟩

/-- C9: for any 6 consecutive pivots the Shape Matcher never reports both SHS
and iSHS: the acceptance predicates require incompatible orderings of `p0`
versus `p1`. -/
theorem shape_matcher_mutual_exclusion (prices : List Frac) (times : List Int) (position : Nat) :
    ¬ ((shsDetect prices times position).isSome = true ∧
       (ishsDetect prices times position).isSome = true) := by
  rintro ⟨h1, h2⟩
  by_cases hb : prices.length ≤ position + 5
  · rw [shsDetect, if_pos hb] at h1
    exact absurd h1 (by simp)
  · have hlen : position + 5 < prices.length := by omega
    have c1 := (shsDetect_isSome_iff prices times position hlen).mp h1
    have c2 := (ishsDetect_isSome_iff prices times position hlen).mp h2
    exact Frac.lt_asymm c1.1 c2.1

/-- C8 (amended): the guarded slope primitive `calculateSlope` returns the
safe value `0` whenever `|x2-x1|` is below the degeneracy epsilon, mirroring
the interpolation fallback (which returns the mean of the endpoints). -/
theorem slope_degenerate_guard (x1 x2 y1 y2 x : Frac)
    (h : Frac.abs (x2 - x1) < degenEps) :
    calculateSlope x1 x2 y1 y2 = 0 ∧
    safeLinearInterpolation x1 x2 y1 y2 x = (y1 + y2) / 2 := by
  rw [calculateSlope, if_pos h, safeLinearInterpolation, if_pos h]
  exact ⟨rfl, rfl⟩

/-- C8 witness: at `x1 = x2 = 5` the guard fires: slope 0, interpolation the
mean of `10` and `20`. -/
theorem slope_degenerate_guard_witness :
    Frac.abs ((5 : Frac) - 5) < degenEps ∧
    calculateSlope 5 5 10 20 = 0 ∧
    safeLinearInterpolation 5 5 10 20 15 = ((10 : Frac) + 20) / 2 :=
  ⟨by decide, slope_degenerate_guard 5 5 10 20 15 (by decide)⟩

/-- C8 counterexample: the exported slope primitive `getSlope` (the one the
shape/feature code actually calls) has no degeneracy guard: at `x1 = x2 = 5`
(distance `0`, below the epsilon) it divides by zero — an IEEE `Inf`, not the
safe value `0`. -/
theorem getSlope_unguarded_cx :
    Frac.abs ((5 : Frac) - 5) < degenEps ∧
    getSlope 5 5 10 20 = none ∧
    ¬ getSlope 5 5 10 20 = some 0 := by
  refine ⟨by decide, by decide, by decide⟩

/-- C4 (amended): the main loop visits exactly the pivot positions
`0 … M-7`: every window of 6 consecutive pivots ending at or before pivot
`M-2` is scanned, and the window starting at `M-6` (ending at the last
pivot) is not. -/
theorem scan_positions_range (m : Nat) (hm : 7 ≤ m) :
    (∀ i, i ∈ scanPositions m ↔ i + 7 ≤ m) ∧
    (m - 6) ∉ scanPositions m ∧
    (m - 7) ∈ scanPositions m := by
  refine ⟨fun i => ?_, ?_, ?_⟩ <;> simp [scanPositions, List.mem_range] <;> omega

/-- C4 witness: with `M = 7` pivots the loop visits only position 0; the
window starting at `M - 6 = 1` is skipped. -/
theorem scan_positions_range_witness :
    (7 : Nat) ≤ 7 ∧
    ((∀ i, i ∈ scanPositions 7 ↔ i + 7 ≤ 7) ∧
     (7 - 6) ∉ scanPositions 7 ∧
     (7 - 7) ∈ scanPositions 7) :=
  ⟨by decide, scan_positions_range 7 (by decide)⟩

/-- C4 counterexample: with 7 pivots, the 6-pivot window starting at
`M - 6 = 1` is a valid SHS for the Shape Matcher, yet `findPatterns` emits no
candidate at all — the loop bound `i < M - 6` never reaches that window, so
the claimed "invoked at every window … including M-6" is false. -/
theorem scan_misses_last_window_cx :
    (shsDetect shiftPrices exTimes7 1).isSome = true ∧
    findPatterns exIdx7 exTimes7 shiftPrices = FindResult.emptyResults :=
  ⟨by decide, by rfl⟩

/-- C7 (amended): an input with fewer than 7 pivot indices yields the
explicit error result with an empty candidate set and no partial work.
(The array-length-match half of the original claim is refuted separately:
no such validation exists.) -/
theorem short_pivot_input_empty (indexFilter : List Nat) (origTimes : List Int)
    (origPrices : List Frac) (h : indexFilter.length < 7) :
    findPatterns indexFilter origTimes origPrices = FindResult.errorResult ∧
    (findPatterns indexFilter origTimes origPrices).recordCount = 0 := by
  rw [findPatterns_short_input indexFilter origTimes origPrices h]
  exact ⟨rfl, rfl⟩

/-- C7 witness: the length-6 pivot sequence yields the explicit empty/error
result. -/
theorem short_pivot_input_empty_witness :
    exIdx6.length < 7 ∧
    (findPatterns exIdx6 exTimes7 exPrices7 = FindResult.errorResult ∧
     (findPatterns exIdx6 exTimes7 exPrices7).recordCount = 0) :=
  ⟨by decide, short_pivot_input_empty exIdx6 exTimes7 exPrices7 (by decide)⟩

/-- C7 counterexample: the array-length-match precondition is never
validated.  With `times` of length 8 and `prices` of length 7 the engine does
not return an empty result: it runs to completion and emits one candidate
record. -/
theorem length_mismatch_not_rejected_cx :
    exTimes8.length = 8 ∧ exPrices7.length = 7 ∧
    (findPatterns exIdx7 exTimes8 exPrices7).recordCount = 1 :=
  ⟨by decide, by decide, by decide⟩

/-- C1: for a monitored candidate (the scan visits only positions strictly
beyond the right shoulder, with `j+1` in bounds), a breakout is confirmed at
original-series sample `j` iff `price[j]` is below the neckline (the line
through the stored trough stamps) at `time[j]` and `price[j+1]` is below the
right-shoulder price — mirrored with "above" for iSHS; on confirmation the
engine records `breakoutIndex = j+1`, `breakoutTime = time[j+1]`,
`breakoutPrice = price[j+1]`; and any breakout index recorded by the
monitoring scan (which starts at `origIndex(pivot5) + 1`) is strictly greater
than `origIndex(pivot5)`. -/
theorem breakout_rule_characterization (prices : List Frac) (times : List Int) (j : Nat)
    (p : PatternData) (hrs : p.rightShoulderIdx < j) (hj : j + 1 < prices.length)
    (ht : p.timeStamps 2 < p.timeStamps 4) :
    ((shsDetectBreakout prices times j p).1 = true ↔
      (prices.getD j 0 <
        necklineLine (p.timeStamps 2) (p.timeStamps 4) (p.priceStamps 2) (p.priceStamps 4)
          (times.getD j 0) ∧
       prices.getD (j+1) 0 < p.priceStamps 5)) ∧
    ((ishsDetectBreakout prices times j p).1 = true ↔
      (necklineLine (p.timeStamps 2) (p.timeStamps 4) (p.priceStamps 2) (p.priceStamps 4)
        (times.getD j 0) < prices.getD j 0 ∧
       p.priceStamps 5 < prices.getD (j+1) 0)) ∧
    ((shsDetectBreakout prices times j p).1 = true →
      ((shsDetectBreakout prices times j p).2.breakoutIdx = some (j+1) ∧
       (shsDetectBreakout prices times j p).2.timeStamps 6 = times.getD (j+1) 0 ∧
       (shsDetectBreakout prices times j p).2.priceStamps 6 = prices.getD (j+1) 0)) ∧
    ((ishsDetectBreakout prices times j p).1 = true →
      ((ishsDetectBreakout prices times j p).2.breakoutIdx = some (j+1) ∧
       (ishsDetectBreakout prices times j p).2.timeStamps 6 = times.getD (j+1) 0 ∧
       (ishsDetectBreakout prices times j p).2.priceStamps 6 = prices.getD (j+1) 0)) ∧
    (∀ rsOrig stop b, p.breakoutIdx = none →
      (breakoutScan prices times (rsOrig + 1) stop p).breakoutIdx = some b → rsOrig < b) := by
  have h1 := shsDetectBreakout_fst_iff prices times j p hrs hj
  have h2 := ishsDetectBreakout_fst_iff prices times j p hrs hj
  unfold shsBreakoutDetected at h1
  unfold ishsBreakoutDetected at h2
  rw [interp_eq_line _ _ _ ht] at h1 h2
  refine ⟨h1, h2, shsDetectBreakout_true_record prices times j p,
    ishsDetectBreakout_true_record prices times j p, ?_⟩
  intro rsOrig stop b hb hscan
  rw [breakoutScan] at hscan
  have := breakoutScanAux_some_gt prices times stop (stop + 1 - (rsOrig + 1)) (rsOrig + 1) p b
    hb hscan
  omega

/-- C1 witness: the round-trip SHS candidate at scan position `j = 6`. -/
theorem breakout_rule_characterization_witness :
    rtPattern.rightShoulderIdx < 6 ∧ 6 + 1 < rtP.length ∧
    rtPattern.timeStamps 2 < rtPattern.timeStamps 4 ∧
    (((shsDetectBreakout rtP rtT 6 rtPattern).1 = true ↔
      (rtP.getD 6 0 <
        necklineLine (rtPattern.timeStamps 2) (rtPattern.timeStamps 4)
          (rtPattern.priceStamps 2) (rtPattern.priceStamps 4) (rtT.getD 6 0) ∧
       rtP.getD 7 0 < rtPattern.priceStamps 5)) ∧
    ((ishsDetectBreakout rtP rtT 6 rtPattern).1 = true ↔
      (necklineLine (rtPattern.timeStamps 2) (rtPattern.timeStamps 4)
        (rtPattern.priceStamps 2) (rtPattern.priceStamps 4) (rtT.getD 6 0) < rtP.getD 6 0 ∧
       rtPattern.priceStamps 5 < rtP.getD 7 0)) ∧
    ((shsDetectBreakout rtP rtT 6 rtPattern).1 = true →
      ((shsDetectBreakout rtP rtT 6 rtPattern).2.breakoutIdx = some 7 ∧
       (shsDetectBreakout rtP rtT 6 rtPattern).2.timeStamps 6 = rtT.getD 7 0 ∧
       (shsDetectBreakout rtP rtT 6 rtPattern).2.priceStamps 6 = rtP.getD 7 0)) ∧
    ((ishsDetectBreakout rtP rtT 6 rtPattern).1 = true →
      ((ishsDetectBreakout rtP rtT 6 rtPattern).2.breakoutIdx = some 7 ∧
       (ishsDetectBreakout rtP rtT 6 rtPattern).2.timeStamps 6 = rtT.getD 7 0 ∧
       (ishsDetectBreakout rtP rtT 6 rtPattern).2.priceStamps 6 = rtP.getD 7 0)) ∧
    (∀ rsOrig stop b, rtPattern.breakoutIdx = none →
      (breakoutScan rtP rtT (rsOrig + 1) stop rtPattern).breakoutIdx = some b → rsOrig < b)) :=
  ⟨by decide, by decide, by decide,
    breakout_rule_characterization rtP rtT 6 rtPattern (by decide) (by decide) (by decide)⟩

/-- C2 (amended): during per-candidate monitoring the invalidation check is
performed at every scanned sample, *including* the starting sample
`j = origIndex(pivot5) + 1` (the pivot-space guard `position >
rightShoulderIdx` is satisfied by every scanned original-series position,
because a strictly increasing pivot filter has `index[k] ≥ k`); whenever it
fires (`price[j] > p5` for SHS) the candidate is marked processed with no
breakout recorded, a processed candidate is never scanned again, and it still
appears in the output as a record with `validPattern = false`. -/
theorem invalidation_check_behavior (prices : List Frac) (times : List Int) (p : PatternData)
    (j stop : Nat) (hname : p.patternName = "SHS")
    (hrs : p.rightShoulderIdx < j) (hstop : j ≤ stop) (hlen : j + 1 < prices.length)
    (hinv : p.priceStamps 5 < prices.getD j 0) :
    ((breakoutScan prices times j stop p).processed = true ∧
     (breakoutScan prices times j stop p).breakoutIdx = p.breakoutIdx) ∧
    (∀ (idx : List Nat) (i cpos : Nat) (q : PatternData), q.processed = true →
      monitorPattern idx prices times i cpos q = q) ∧
    (∀ (idx : List Nat) (q : PatternData), q.breakoutIdx = none →
      (mkRecord idx q).validPattern = false) ∧
    (∀ (idx : List Nat) (pats : List PatternData),
      (pats.map (mkRecord idx)).length = pats.length) ∧
    (∀ (idxF : List Nat) (k : Nat), List.Pairwise (· < ·) idxF → k < idxF.length →
      k < idxF.getD k 0 + 1) := by
  have hfuel : stop + 1 - j = (stop - j) + 1 := by omega
  have hinvB : detectorIsInvalidated prices j p = true := by
    rw [detectorIsInvalidated, if_pos hname, shsIsPatternInvalidated, if_pos hrs,
      if_neg (by omega)]
    exact decide_eq_true hinv
  constructor
  · rw [breakoutScan, hfuel, breakoutScanAux, if_pos ⟨hstop, by omega⟩, if_pos hinvB]
    exact ⟨rfl, rfl⟩
  · refine ⟨fun idx => monitorPattern_processed_id idx prices times, mkRecord_invalid, ?_, ?_⟩
    · intro idx pats
      exact List.length_map pats (mkRecord idx)
    · intro idxF k hp hk
      have := pairwise_le_getD idxF hp k hk
      omega

/-- C2 witness: the invalidation input, scanned exactly at its starting
sample `j = origIndex(pivot5) + 1 = 6`. -/
theorem invalidation_check_behavior_witness :
    invPattern.patternName = "SHS" ∧ invPattern.rightShoulderIdx < 6 ∧
    (6 : Nat) ≤ 6 ∧ 6 + 1 < invPrices.length ∧
    invPattern.priceStamps 5 < invPrices.getD 6 0 ∧
    (((breakoutScan invPrices invTimes 6 6 invPattern).processed = true ∧
      (breakoutScan invPrices invTimes 6 6 invPattern).breakoutIdx = invPattern.breakoutIdx) ∧
     (∀ (idx : List Nat) (i cpos : Nat) (q : PatternData), q.processed = true →
       monitorPattern idx invPrices invTimes i cpos q = q) ∧
     (∀ (idx : List Nat) (q : PatternData), q.breakoutIdx = none →
       (mkRecord idx q).validPattern = false) ∧
     (∀ (idx : List Nat) (pats : List PatternData),
       (pats.map (mkRecord idx)).length = pats.length) ∧
     (∀ (idxF : List Nat) (k : Nat), List.Pairwise (· < ·) idxF → k < idxF.length →
       k < idxF.getD k 0 + 1)) :=
  ⟨by decide, by decide, by decide, by decide, by decide,
    invalidation_check_behavior invPrices invTimes invPattern 6 6
      (by decide) (by decide) (by decide) (by decide) (by decide)⟩

/-- C2 counterexample: the claim says the invalidation check is *skipped*
exactly at the starting sample, so a scan covering only that sample could
never invalidate.  On this input the scan from `j = origIndex(pivot5)+1 = 6`
to `stop = 6` (the starting sample alone) marks the fresh candidate processed
with no breakout — i.e. the invalidation check fired at the starting
sample. -/
theorem invalidation_at_first_sample_cx :
    invPattern.processed = false ∧
    invPattern.priceStamps 5 < invPrices.getD 6 0 ∧
    (breakoutScan invPrices invTimes 6 6 invPattern).processed = true ∧
    (breakoutScan invPrices invTimes 6 6 invPattern).breakoutIdx = none := by
  refine ⟨by decide, by decide, by decide, by decide⟩

/-- C6: at every pivot position, after the Trend Tracker's update, all four
run counters are non-negative and at most one of the two same-parity run
counters (ascending vs descending) is non-zero; and whenever a counter is
reset by the update, the opposite-direction counter of that parity
simultaneously becomes 1. -/
theorem trend_counter_invariant (prices : List Frac) (times : List Int) (n : Nat) :
    TrendInvariant (trendStateAt prices times n) ∧
    (0 < (trendStateAt prices times n).descLowCount ∧
        (updateTrends prices times n (trendStateAt prices times n)).1.descLowCount = 0 →
      (updateTrends prices times n (trendStateAt prices times n)).1.ascLowCount = 1) ∧
    (0 < (trendStateAt prices times n).ascLowCount ∧
        (updateTrends prices times n (trendStateAt prices times n)).1.ascLowCount = 0 →
      (updateTrends prices times n (trendStateAt prices times n)).1.descLowCount = 1) ∧
    (0 < (trendStateAt prices times n).descHighCount ∧
        (updateTrends prices times n (trendStateAt prices times n)).1.descHighCount = 0 →
      (updateTrends prices times n (trendStateAt prices times n)).1.ascHighCount = 1) ∧
    (0 < (trendStateAt prices times n).ascHighCount ∧
        (updateTrends prices times n (trendStateAt prices times n)).1.ascHighCount = 0 →
      (updateTrends prices times n (trendStateAt prices times n)).1.descHighCount = 1) := by
  have inv : ∀ m, TrendInvariant (trendStateAt prices times m) := by
    intro m
    induction m with
    | zero =>
      unfold TrendInvariant trendStateAt TrendState.init
      refine ⟨le_refl 0, le_refl 0, le_refl 0, le_refl 0, Or.inl rfl, Or.inl rfl⟩
    | succ k ih =>
      rw [trendStateAt]
      exact (updateTrends_step prices times k (trendStateAt prices times k) ih).1
  have step := updateTrends_step prices times n (trendStateAt prices times n) (inv n)
  exact ⟨inv n, step.2.1, step.2.2.1, step.2.2.2.1, step.2.2.2.2⟩

/-- C6 witness: on a pivot series where a descending-low run of length 1 is
reset at position 4, the invariant and the reset-coincidence hold, and the
reset clause is exercised: the descending-low counter really was positive
before the update and zero after, with the ascending-low counter at 1. -/
theorem trend_counter_invariant_witness :
    (TrendInvariant (trendStateAt wReset wResetT 4) ∧
     (0 < (trendStateAt wReset wResetT 4).descLowCount ∧
         (updateTrends wReset wResetT 4 (trendStateAt wReset wResetT 4)).1.descLowCount = 0 →
       (updateTrends wReset wResetT 4 (trendStateAt wReset wResetT 4)).1.ascLowCount = 1) ∧
     (0 < (trendStateAt wReset wResetT 4).ascLowCount ∧
         (updateTrends wReset wResetT 4 (trendStateAt wReset wResetT 4)).1.ascLowCount = 0 →
       (updateTrends wReset wResetT 4 (trendStateAt wReset wResetT 4)).1.descLowCount = 1) ∧
     (0 < (trendStateAt wReset wResetT 4).descHighCount ∧
         (updateTrends wReset wResetT 4 (trendStateAt wReset wResetT 4)).1.descHighCount = 0 →
       (updateTrends wReset wResetT 4 (trendStateAt wReset wResetT 4)).1.ascHighCount = 1) ∧
     (0 < (trendStateAt wReset wResetT 4).ascHighCount ∧
         (updateTrends wReset wResetT 4 (trendStateAt wReset wResetT 4)).1.ascHighCount = 0 →
       (updateTrends wReset wResetT 4 (trendStateAt wReset wResetT 4)).1.descHighCount = 1)) ∧
    0 < (trendStateAt wReset wResetT 4).descLowCount ∧
    (updateTrends wReset wResetT 4 (trendStateAt wReset wResetT 4)).1.descLowCount = 0 ∧
    (updateTrends wReset wResetT 4 (trendStateAt wReset wResetT 4)).2 = true :=
  ⟨trend_counter_invariant wReset wResetT 4, by decide, by decide, by decide⟩

/-- C10 (amended): when the relevant prior-trend run counter is zero at
detection time, `applyTrendInfo` stores the sentinel values `-1.0` for the
start price and `INVALID_TIME = -1` for the start time with a count of `0`
(as actual values, not missing/NA), and the emitted record carries exactly
these fields.  (The value `99999991` of the original claim belongs to a stale
header variant whose `PatternData` has no prior-trend fields.) -/
theorem prior_trend_sentinel (s : TrendState) (p : PatternData) (idx : List Nat) :
    (p.patternName = "SHS" → ¬ 0 < s.ascLowCount →
      ((applyTrendInfo s p).priorTrendStartPrice = some (-1) ∧
       (applyTrendInfo s p).priorTrendStartTime = INVALID_TIME ∧
       (applyTrendInfo s p).priorTrendStartTime = -1 ∧
       (applyTrendInfo s p).priorTrendPointsCount = 0 ∧
       (mkRecord idx (applyTrendInfo s p)).priorTrendStartPrice = some (-1) ∧
       (mkRecord idx (applyTrendInfo s p)).priorTrendStartTime = -1 ∧
       (mkRecord idx (applyTrendInfo s p)).priorTrendPointsCount = 0)) ∧
    (p.patternName = "iSHS" → ¬ 0 < s.descHighCount →
      ((applyTrendInfo s p).priorTrendStartPrice = some (-1) ∧
       (applyTrendInfo s p).priorTrendStartTime = INVALID_TIME ∧
       (applyTrendInfo s p).priorTrendStartTime = -1 ∧
       (applyTrendInfo s p).priorTrendPointsCount = 0 ∧
       (mkRecord idx (applyTrendInfo s p)).priorTrendStartPrice = some (-1) ∧
       (mkRecord idx (applyTrendInfo s p)).priorTrendStartTime = -1 ∧
       (mkRecord idx (applyTrendInfo s p)).priorTrendPointsCount = 0)) := by
  constructor
  · intro hname hcnt
    rw [applyTrendInfo, if_pos hname, if_neg hcnt]
    dsimp only
    rw [mkRecord]
    dsimp only
    exact ⟨rfl, rfl, rfl, rfl, rfl, rfl, rfl⟩
  · intro hname hcnt
    have hno : ¬ p.patternName = "SHS" := by
      rw [hname]
      decide
    rw [applyTrendInfo, if_neg hno, if_pos hname, if_neg hcnt]
    dsimp only
    rw [mkRecord]
    dsimp only
    exact ⟨rfl, rfl, rfl, rfl, rfl, rfl, rfl⟩

/-- C10 witness: the sentinel branch exercised for an SHS candidate and an
iSHS candidate with the freshly reset tracker. -/
theorem prior_trend_sentinel_witness :
    (rtPattern.patternName = "SHS" ∧ ¬ 0 < TrendState.init.ascLowCount ∧
     ((applyTrendInfo TrendState.init rtPattern).priorTrendStartPrice = some (-1) ∧
      (applyTrendInfo TrendState.init rtPattern).priorTrendStartTime = INVALID_TIME ∧
      (applyTrendInfo TrendState.init rtPattern).priorTrendStartTime = -1 ∧
      (applyTrendInfo TrendState.init rtPattern).priorTrendPointsCount = 0 ∧
      (mkRecord exIdx7 (applyTrendInfo TrendState.init rtPattern)).priorTrendStartPrice =
        some (-1) ∧
      (mkRecord exIdx7 (applyTrendInfo TrendState.init rtPattern)).priorTrendStartTime = -1 ∧
      (mkRecord exIdx7 (applyTrendInfo TrendState.init rtPattern)).priorTrendPointsCount = 0)) ∧
    (mirPattern.patternName = "iSHS" ∧ ¬ 0 < TrendState.init.descHighCount ∧
     ((applyTrendInfo TrendState.init mirPattern).priorTrendStartPrice = some (-1) ∧
      (applyTrendInfo TrendState.init mirPattern).priorTrendStartTime = INVALID_TIME ∧
      (applyTrendInfo TrendState.init mirPattern).priorTrendStartTime = -1 ∧
      (applyTrendInfo TrendState.init mirPattern).priorTrendPointsCount = 0 ∧
      (mkRecord exIdx7 (applyTrendInfo TrendState.init mirPattern)).priorTrendStartPrice =
        some (-1) ∧
      (mkRecord exIdx7 (applyTrendInfo TrendState.init mirPattern)).priorTrendStartTime = -1 ∧
      (mkRecord exIdx7 (applyTrendInfo TrendState.init mirPattern)).priorTrendPointsCount = 0)) :=
  ⟨⟨by decide, by decide,
    (prior_trend_sentinel TrendState.init rtPattern exIdx7).1 (by decide) (by decide)⟩,
   ⟨by decide, by decide,
    (prior_trend_sentinel TrendState.init mirPattern exIdx7).2 (by decide) (by decide)⟩⟩

/-- C10 counterexample: on a full run of `findPatterns` with no prior trend,
the emitted record's prior-trend start time is the sentinel `-1`, not
`99999991` as the claim states (the `99999991` constant lives in a stale
header variant whose `PatternData` carries no prior-trend fields at all). -/
theorem prior_trend_sentinel_value_cx :
    ((findPatterns exIdx7 exTimes7 exPrices7).firstRecord.map
      (fun r => r.priorTrendStartTime)) = some (-1) ∧
    ((findPatterns exIdx7 exTimes7 exPrices7).firstRecord.map
      (fun r => r.priorTrendStartPrice)) = some (some (-1)) ∧
    ((findPatterns exIdx7 exTimes7 exPrices7).firstRecord.map
      (fun r => r.priorTrendPointsCount)) = some 0 ∧
    ¬ ((-1 : Int) = 99999991) := by
  refine ⟨by decide, by decide, by decide, by decide⟩

/-- C5 (amended): after a confirmed breakout, each not-yet-filled fixed or
relative return slot whose elapsed-time threshold has just been exceeded
(`timeDiff > window`) is filled; SHS fills it with the ratio
`breakoutPrice / price[sample]` (log of that ratio for the single-period
slot), and iSHS mirrors this with the inverted ratio
`price[sample] / breakoutPrice` (log of that for the single-period slot);
already-filled slots and slots whose threshold is not yet exceeded are
unchanged.  (The original claim assigns `price[sample]/breakoutPrice` to SHS
and the inverse to iSHS — the opposite of the code.) -/
theorem return_slot_formula (prices : List Frac) (times : List Int) (pos b : Nat)
    (p : PatternData) (hb : p.breakoutIdx = some b) (hpos : b < pos)
    (hlp : pos < prices.length) (hlt : pos < times.length)
    (hz : ¬ (p.priceStamps 6).isZero = true) (ht6 : ¬ p.timeStamps 6 = 0) :
    (∀ w, w < 6 →
      (shsUpdateReturns prices times pos p).2.returns w =
        if ¬ p.fixedWindowsFound w = true ∧
            fixedWindows w < times.getD pos 0 - p.timeStamps 6 then
          if w = 0 then RetEntry.logRatio (p.priceStamps 6 / prices.getD pos 0)
          else RetEntry.ratio (p.priceStamps 6 / prices.getD pos 0)
        else p.returns w) ∧
    (∀ w, w < 5 →
      (shsUpdateReturns prices times pos p).2.relReturns w =
        if ¬ p.relWindowsFound w = true ∧
            relWindows
              (if p.timeStamps 6 -
                  (if p.startIdx < times.length then times.getD p.startIdx 0
                   else p.timeStamps 0) ≤ 0
               then 1
               else p.timeStamps 6 -
                  (if p.startIdx < times.length then times.getD p.startIdx 0
                   else p.timeStamps 0)) w < times.getD pos 0 - p.timeStamps 6 then
          RetEntry.ratio (p.priceStamps 6 / prices.getD pos 0)
        else p.relReturns w) ∧
    (∀ w, w < 6 →
      (ishsUpdateReturns prices times pos p).2.returns w =
        if ¬ p.fixedWindowsFound w = true ∧
            fixedWindows w < times.getD pos 0 - p.timeStamps 6 then
          if w = 0 then RetEntry.logRatio (prices.getD pos 0 / p.priceStamps 6)
          else RetEntry.ratio (prices.getD pos 0 / p.priceStamps 6)
        else p.returns w) ∧
    (∀ w, w < 5 →
      (ishsUpdateReturns prices times pos p).2.relReturns w =
        if ¬ p.relWindowsFound w = true ∧
            relWindows
              (if p.timeStamps 6 -
                  (if p.startIdx < times.length then times.getD p.startIdx 0
                   else p.timeStamps 0) ≤ 0
               then 1
               else p.timeStamps 6 -
                  (if p.startIdx < times.length then times.getD p.startIdx 0
                   else p.timeStamps 0)) w < times.getD pos 0 - p.timeStamps 6 then
          RetEntry.ratio (prices.getD pos 0 / p.priceStamps 6)
        else p.relReturns w) := by
  have e1 := shsUpdateReturns_eq_fill prices times pos b p hb hpos hlp hlt hz ht6
  have e2 := ishsUpdateReturns_eq_fill prices times pos b p hb hpos hlp hlt hz ht6
  refine ⟨?_, ?_, ?_, ?_⟩ <;> intro w hw
  · rw [e1]
    exact fillReturnSlots_returns_spec _ _ _ p w hw
  · rw [e1]
    exact fillReturnSlots_relReturns_spec _ _ _ p w hw
  · rw [e2]
    exact fillReturnSlots_returns_spec _ _ _ p w hw
  · rw [e2]
    exact fillReturnSlots_relReturns_spec _ _ _ p w hw

/-- C5 witness: the round-trip candidate after breakout, at sample 12
(`timeDiff = 5`), slot 1 (threshold 3) and relative slot 0. -/
theorem return_slot_formula_witness :
    rtBrkPattern.breakoutIdx = some 7 ∧ (7 : Nat) < 12 ∧ (12 : Nat) < rtP.length ∧
    (12 : Nat) < rtT.length ∧ ¬ (rtBrkPattern.priceStamps 6).isZero = true ∧
    ¬ rtBrkPattern.timeStamps 6 = 0 ∧
    ((shsUpdateReturns rtP rtT 12 rtBrkPattern).2.returns 1 =
      if ¬ rtBrkPattern.fixedWindowsFound 1 = true ∧
          fixedWindows 1 < rtT.getD 12 0 - rtBrkPattern.timeStamps 6 then
        if (1 : Nat) = 0 then
          RetEntry.logRatio (rtBrkPattern.priceStamps 6 / rtP.getD 12 0)
        else RetEntry.ratio (rtBrkPattern.priceStamps 6 / rtP.getD 12 0)
      else rtBrkPattern.returns 1) ∧
    ((ishsUpdateReturns rtP rtT 12 rtBrkPattern).2.returns 1 =
      if ¬ rtBrkPattern.fixedWindowsFound 1 = true ∧
          fixedWindows 1 < rtT.getD 12 0 - rtBrkPattern.timeStamps 6 then
        if (1 : Nat) = 0 then
          RetEntry.logRatio (rtP.getD 12 0 / rtBrkPattern.priceStamps 6)
        else RetEntry.ratio (rtP.getD 12 0 / rtBrkPattern.priceStamps 6)
      else rtBrkPattern.returns 1) :=
  ⟨by decide, by decide, by decide, by decide, by decide, by decide,
   (return_slot_formula rtP rtT 12 7 rtBrkPattern (by decide) (by decide) (by decide)
     (by decide) (by decide) (by decide)).1 1 (by decide),
   (return_slot_formula rtP rtT 12 7 rtBrkPattern (by decide) (by decide) (by decide)
     (by decide) (by decide) (by decide)).2.2.1 1 (by decide)⟩

/-- C5 counterexample: at sample 12 of the round-trip input the SHS return
slot 1 is filled with `breakoutPrice / price[12] = 103/97`, while the claim
prescribes `price[12] / breakoutPrice = 97/103`; the two are different
rational values (cross-multiplication `103·103 ≠ 97·97`). -/
theorem return_ratio_direction_cx :
    (shsUpdateReturns rtP rtT 12 rtBrkPattern).2.returns 1 =
      RetEntry.ratio (rtBrkPattern.priceStamps 6 / rtP.getD 12 0) ∧
    ¬ ((rtBrkPattern.priceStamps 6 / rtP.getD 12 0).num *
         (rtP.getD 12 0 / rtBrkPattern.priceStamps 6).den =
       (rtP.getD 12 0 / rtBrkPattern.priceStamps 6).num *
         (rtBrkPattern.priceStamps 6 / rtP.getD 12 0).den) := by
  refine ⟨by decide, by decide⟩

/-- C9 witness: instantiated at the synthetic SHS pivots. -/
theorem shape_matcher_mutual_exclusion_witness :
    ¬ ((shsDetect sQp sQt 0).isSome = true ∧ (ishsDetect sQp sQt 0).isSome = true) :=
  shape_matcher_mutual_exclusion sQp sQt 0
